import Mathlib

/-!
# animate_sphere.cpp: a shallow embedding

The program loads meshes, uploads them to GPU objects, compiles a shader pair
and animates one displacement vector with a constant-acceleration formula.

Conventions of the embedding:

* `float` arithmetic is read as exact arithmetic over `ℚ`
  (`0.5f = 1/2`, `0.8f = 4/5`, `-0.4f = -2/5`, ...).
* `int` time stamps are `Int`; `glutGet(GLUT_ELAPSED_TIME)` is a parameter of the
  idle callback.  It returns non-negative values, so the `int` difference of two time
  stamps `start ≤ now` does not overflow.  `unsigned` counters are `Nat`: a mesh count is
  far below the `2^31` at which `2 * num_objects` would wrap.
* The OpenGL / GLUT context is an explicit record `GLContext` that is threaded through
  every function; each `gl*` call of the source is one function on that record.
* `exit(1)` is an explicit `Outcome.exited`, the two output streams are threaded.
* Out-of-bounds array reads are `none`.
-/

namespace AnimateSphere

/-! ## Vectors and matrices (the part of GLM that the program uses) -/

/-- A `glm::vec3` with exact components. -/
structure Vec3 where
  x : ℚ
  y : ℚ
  z : ℚ
deriving DecidableEq

/-- A `glm::vec4` with exact components. -/
structure Vec4 where
  x : ℚ
  y : ℚ
  z : ℚ
  w : ℚ
deriving DecidableEq

/-- Component-wise sum, `glm::vec3 operator+`. -/
def Vec3.add (a b : Vec3) : Vec3 := ⟨a.x + b.x, a.y + b.y, a.z + b.z⟩

/-- Scalar times vector, `operator*(float, glm::vec3)`. -/
def Vec3.smul (k : ℚ) (v : Vec3) : Vec3 := ⟨k * v.x, k * v.y, k * v.z⟩

/-- Component-wise sum, `glm::vec4 operator+`. -/
def Vec4.add (a b : Vec4) : Vec4 := ⟨a.x + b.x, a.y + b.y, a.z + b.z, a.w + b.w⟩

/-- Component-wise difference, `glm::vec4 operator-`. -/
def Vec4.sub (a b : Vec4) : Vec4 := ⟨a.x - b.x, a.y - b.y, a.z - b.z, a.w - b.w⟩

/-- Component-wise product, `glm::vec4 operator*`. -/
def Vec4.mul (a b : Vec4) : Vec4 := ⟨a.x * b.x, a.y * b.y, a.z * b.z, a.w * b.w⟩

/-- Vector times scalar, `operator*(glm::vec4, float)`. -/
def Vec4.scale (v : Vec4) (k : ℚ) : Vec4 := ⟨v.x * k, v.y * k, v.z * k, v.w * k⟩

/-- A `glm::mat4`: four columns, `m[c]` is column `c` and `m[c][r]` its row `r`. -/
structure Mat4 where
  c0 : Vec4
  c1 : Vec4
  c2 : Vec4
  c3 : Vec4
deriving DecidableEq

/-- The matrix `glm::mat4(1.0f)`. -/
def Mat4.identity : Mat4 :=
  ⟨⟨1, 0, 0, 0⟩, ⟨0, 1, 0, 0⟩, ⟨0, 0, 1, 0⟩, ⟨0, 0, 0, 1⟩⟩

/-- Matrix times column vector: the linear combination of the columns. -/
def Mat4.mulVec (m : Mat4) (v : Vec4) : Vec4 :=
  ((m.c0.scale v.x).add (m.c1.scale v.y)).add ((m.c2.scale v.z).add (m.c3.scale v.w))

/-- Matrix product `glm::mat4 operator*`: column `c` of `a * b` is `a * b[c]`. -/
def Mat4.mul (a b : Mat4) : Mat4 :=
  ⟨a.mulVec b.c0, a.mulVec b.c1, a.mulVec b.c2, a.mulVec b.c3⟩

/-- The function `glm::translate(m, v)`: the last column becomes
`m[0]*v.x + m[1]*v.y + m[2]*v.z + m[3]`, the others are kept. -/
def glm_translate (m : Mat4) (v : Vec3) : Mat4 :=
  { m with c3 := (((m.c0.scale v.x).add (m.c1.scale v.y)).add (m.c2.scale v.z)).add m.c3 }

/-- The function `glm::ortho(left, right, bottom, top, zNear, zFar)`
(right-handed, depth range -1..1, the library default). -/
def glm_ortho (left right bottom top zNear zFar : ℚ) : Mat4 :=
  ⟨⟨2 / (right - left), 0, 0, 0⟩,
   ⟨0, 2 / (top - bottom), 0, 0⟩,
   ⟨0, 0, -(2 / (zFar - zNear)), 0⟩,
   ⟨-((right + left) / (right - left)), -((top + bottom) / (top - bottom)),
    -((zFar + zNear) / (zFar - zNear)), 1⟩⟩

/-- The function `glm::inverse` on a `mat4`: cofactors divided by the determinant,
in the order GLM computes them. -/
def glm_inverse (m : Mat4) : Mat4 :=
  let coef00 := m.c2.z * m.c3.w - m.c3.z * m.c2.w
  let coef02 := m.c1.z * m.c3.w - m.c3.z * m.c1.w
  let coef03 := m.c1.z * m.c2.w - m.c2.z * m.c1.w
  let coef04 := m.c2.y * m.c3.w - m.c3.y * m.c2.w
  let coef06 := m.c1.y * m.c3.w - m.c3.y * m.c1.w
  let coef07 := m.c1.y * m.c2.w - m.c2.y * m.c1.w
  let coef08 := m.c2.y * m.c3.z - m.c3.y * m.c2.z
  let coef10 := m.c1.y * m.c3.z - m.c3.y * m.c1.z
  let coef11 := m.c1.y * m.c2.z - m.c2.y * m.c1.z
  let coef12 := m.c2.x * m.c3.w - m.c3.x * m.c2.w
  let coef14 := m.c1.x * m.c3.w - m.c3.x * m.c1.w
  let coef15 := m.c1.x * m.c2.w - m.c2.x * m.c1.w
  let coef16 := m.c2.x * m.c3.z - m.c3.x * m.c2.z
  let coef18 := m.c1.x * m.c3.z - m.c3.x * m.c1.z
  let coef19 := m.c1.x * m.c2.z - m.c2.x * m.c1.z
  let coef20 := m.c2.x * m.c3.y - m.c3.x * m.c2.y
  let coef22 := m.c1.x * m.c3.y - m.c3.x * m.c1.y
  let coef23 := m.c1.x * m.c2.y - m.c2.x * m.c1.y
  let fac0 : Vec4 := ⟨coef00, coef00, coef02, coef03⟩
  let fac1 : Vec4 := ⟨coef04, coef04, coef06, coef07⟩
  let fac2 : Vec4 := ⟨coef08, coef08, coef10, coef11⟩
  let fac3 : Vec4 := ⟨coef12, coef12, coef14, coef15⟩
  let fac4 : Vec4 := ⟨coef16, coef16, coef18, coef19⟩
  let fac5 : Vec4 := ⟨coef20, coef20, coef22, coef23⟩
  let vec0 : Vec4 := ⟨m.c1.x, m.c0.x, m.c0.x, m.c0.x⟩
  let vec1 : Vec4 := ⟨m.c1.y, m.c0.y, m.c0.y, m.c0.y⟩
  let vec2 : Vec4 := ⟨m.c1.z, m.c0.z, m.c0.z, m.c0.z⟩
  let vec3 : Vec4 := ⟨m.c1.w, m.c0.w, m.c0.w, m.c0.w⟩
  let inv0 := ((vec1.mul fac0).sub (vec2.mul fac1)).add (vec3.mul fac2)
  let inv1 := ((vec0.mul fac0).sub (vec2.mul fac3)).add (vec3.mul fac4)
  let inv2 := ((vec0.mul fac1).sub (vec1.mul fac3)).add (vec3.mul fac5)
  let inv3 := ((vec0.mul fac2).sub (vec1.mul fac4)).add (vec2.mul fac5)
  let signA : Vec4 := ⟨1, -1, 1, -1⟩
  let signB : Vec4 := ⟨-1, 1, -1, 1⟩
  let i0 := inv0.mul signA
  let i1 := inv1.mul signB
  let i2 := inv2.mul signA
  let i3 := inv3.mul signB
  let row0 : Vec4 := ⟨i0.x, i1.x, i2.x, i3.x⟩
  let dot0 := m.c0.mul row0
  let dot1 := (dot0.x + dot0.y) + (dot0.z + dot0.w)
  let oneOverDeterminant := 1 / dot1
  ⟨i0.scale oneOverDeterminant, i1.scale oneOverDeterminant,
   i2.scale oneOverDeterminant, i3.scale oneOverDeterminant⟩

/-! ## Physics constants (lines 4-6 and 53-55) -/

/-- The macro `INIT_POSITION 0.5f`. -/
def INIT_POSITION : ℚ := 1 / 2

/-- The macro `INIT_VELOCITY 0.8f`. -/
def INIT_VELOCITY : ℚ := 4 / 5

/-- The macro `ACCELERATION -0.4f`. -/
def ACCELERATION : ℚ := -(2 / 5)

/-- The global `init_position = vec3(0, INIT_POSITION, 0)`. -/
def init_position : Vec3 := ⟨0, INIT_POSITION, 0⟩

/-- The global `init_velocity = vec3(INIT_VELOCITY, INIT_VELOCITY, 0)`. -/
def init_velocity : Vec3 := ⟨INIT_VELOCITY, INIT_VELOCITY, 0⟩

/-- The global `acceleration = vec3(0, ACCELERATION, 0)`. -/
def acceleration : Vec3 := ⟨0, ACCELERATION, 0⟩

/-- The global `color = vec3(0, 0, 1)`. -/
def color : Vec3 := ⟨0, 0, 1⟩

/-- The elapsed seconds `delta_t = (current_time - start_time)/1000.0f` (line 292). -/
def delta_t (start_time current_time : Int) : ℚ :=
  ((current_time - start_time : Int) : ℚ) / 1000

/-- The vector `delta_r` of lines 295-296:
`init_position + delta_t * init_velocity + 0.5f * delta_t * delta_t * acceleration`,
with the products associated to the left as C++ parses them. -/
def delta_r (dt : ℚ) : Vec3 :=
  (init_position.add (Vec3.smul dt init_velocity)).add
    (Vec3.smul (1 / 2 * dt * dt) acceleration)

/-! ## Mesh records -/

/-- Modelled from the spec: the attribute-stream record of `colladainterface.h`, which is not
among the sources ("raw byte buffer + element stride + element type"); the field names are the
ones `init_buffers` reads (`type`, `size`, `stride`, `data`). -/
structure SourceData where
  type : Nat
  size : Nat
  stride : Nat
  data : List Nat
deriving DecidableEq

/-- Modelled from the spec: the mesh record `ColGeom` of `colladainterface.h`, which is not
among the sources: named attribute streams (`map`, a `std::map` read with `operator[]`, hence
total), an index stream of unsigned 16-bit values, its length and a primitive topology tag. -/
structure ColGeom where
  map : String → SourceData
  primitive : Nat
  index_count : Nat
  indices : List Nat

/-- The C++ structure `LightParameters` (lines 29-33). -/
structure LightParameters where
  diffuse_intensity : Vec4
  ambient_intensity : Vec4
  light_direction : Vec4
deriving DecidableEq

/-! ## The OpenGL / GLUT context -/

/-- The buffer binding points the program uses. -/
inductive BufferTarget where
  | GL_ARRAY_BUFFER
  | GL_ELEMENT_ARRAY_BUFFER
  | GL_UNIFORM_BUFFER
deriving DecidableEq

/-- The usage hints the program passes to `glBufferData`. -/
inductive Usage where
  | GL_STATIC_DRAW
  | GL_STREAM_DRAW
deriving DecidableEq

/-- What the client memory handed to `glBufferData` held. -/
inductive Payload where
  | raw (data : List Nat)
  | light (params : LightParameters)
deriving DecidableEq

/-- The data store of a buffer object after `glBufferData`. -/
structure BufferStore where
  size : Nat
  payload : Payload
  usage : Usage
deriving DecidableEq

/-- One vertex attribute of a vertex array object, as `glVertexAttribPointer` sets it. -/
structure AttribPointer where
  buffer : Nat
  size : Nat
  type : Nat
deriving DecidableEq

/-- The state a vertex array object records: attribute pointers, the enabled attribute
indices and the element-array buffer binding. -/
structure VertexArray where
  attribs : Nat → Option AttribPointer
  enabled : List Nat
  element_buffer : Nat

/-- A fresh vertex array object. -/
def VertexArray.empty : VertexArray := ⟨fun _ => none, [], 0⟩

/-- The two shader kinds of `glCreateShader`. -/
inductive ShaderKind where
  | GL_VERTEX_SHADER
  | GL_FRAGMENT_SHADER
deriving DecidableEq

/-- The object behind a shader handle. -/
structure ShaderObject where
  kind : ShaderKind
  source : String
  compile_status : Bool
  info_log : String
deriving DecidableEq

/-- The object behind a program handle. -/
structure ProgramObject where
  attrib_bindings : List (Nat × String)
  attached : List Nat
  link_status : Bool
deriving DecidableEq

/-- One `glDrawElements` call: the topology and index count passed, and the vertex array
object that was bound when the draw was issued (the draw fetches indices and attributes
through it). -/
structure DrawCall where
  mode : Nat
  count : Nat
  vertex_array : Nat
deriving DecidableEq

/-- The GLSL compiler and linker of the platform, which the program only observes through
`GL_COMPILE_STATUS`, the info log and the result of `glLinkProgram`. -/
structure Driver where
  compile_status : ShaderKind → String → Bool
  info_log : ShaderKind → String → String
  link_status : List ShaderObject → Bool

/-- The part of the OpenGL / GLUT context the program can change.

Object names are handed out by counters (`1, 2, 3, ...`, never `0`, never reused), one for
vertex arrays, one for buffers, one for shaders and programs: the three name spaces of
OpenGL.  `vertex_arrays` and `buffers` list the names that are in use;
`released_vertex_arrays` and `released_buffers` log every name a delete call released.
The uniforms `delta`, `color` and `mvp` of the program in use are fields: the locations the
source keeps in `delta_location`, `color_location` and `mvp_location` stand for them.
`redisplay_posts` counts the `glutPostRedisplay` calls and `draws` logs the draw calls. -/
structure GLContext where
  next_vertex_array : Nat
  next_buffer : Nat
  next_object : Nat
  vertex_arrays : List Nat
  buffers : List Nat
  released_vertex_arrays : List Nat
  released_buffers : List Nat
  bound_vertex_array : Nat
  array_buffer : Nat
  uniform_buffer : Nat
  vao : Nat → VertexArray
  store : Nat → Option BufferStore
  uniform_binding_0 : Nat
  shaders : Nat → Option ShaderObject
  programs : Nat → Option ProgramObject
  current_program : Nat
  delta : Vec3
  color : Vec3
  mvp : Mat4
  viewport : Int × Int × Int × Int
  redisplay_posts : Nat
  draws : List DrawCall

/-- A context in which nothing has been created yet. -/
def GLContext.initial : GLContext :=
  { next_vertex_array := 1, next_buffer := 1, next_object := 1,
    vertex_arrays := [], buffers := [],
    released_vertex_arrays := [], released_buffers := [],
    bound_vertex_array := 0, array_buffer := 0, uniform_buffer := 0,
    vao := fun _ => VertexArray.empty, store := fun _ => none,
    uniform_binding_0 := 0,
    shaders := fun _ => none, programs := fun _ => none, current_program := 0,
    delta := ⟨0, 0, 0⟩, color := ⟨0, 0, 0⟩, mvp := Mat4.identity,
    viewport := (0, 0, 0, 0), redisplay_posts := 0, draws := [] }

/-- The call `glGenVertexArrays(n, arr)`: `n` fresh vertex array names. -/
def glGenVertexArrays (n : Nat) (gl : GLContext) : List Nat × GLContext :=
  (List.range' gl.next_vertex_array n,
   { gl with next_vertex_array := gl.next_vertex_array + n,
             vertex_arrays := gl.vertex_arrays ++ List.range' gl.next_vertex_array n })

/-- The call `glGenBuffers(n, arr)`: `n` fresh buffer names. -/
def glGenBuffers (n : Nat) (gl : GLContext) : List Nat × GLContext :=
  (List.range' gl.next_buffer n,
   { gl with next_buffer := gl.next_buffer + n,
             buffers := gl.buffers ++ List.range' gl.next_buffer n })

/-- The call `glBindVertexArray(v)`. -/
def glBindVertexArray (v : Nat) (gl : GLContext) : GLContext := { gl with bound_vertex_array := v }

/-- The call `glBindBuffer(target, b)`; the element-array binding belongs to the bound
vertex array object. -/
def glBindBuffer (target : BufferTarget) (b : Nat) (gl : GLContext) : GLContext :=
  match target with
  | .GL_ARRAY_BUFFER => { gl with array_buffer := b }
  | .GL_UNIFORM_BUFFER => { gl with uniform_buffer := b }
  | .GL_ELEMENT_ARRAY_BUFFER =>
    { gl with vao := fun v =>
        if v = gl.bound_vertex_array then { gl.vao v with element_buffer := b } else gl.vao v }

/-- The buffer currently bound to `target`. -/
def bound_buffer (target : BufferTarget) (gl : GLContext) : Nat :=
  match target with
  | .GL_ARRAY_BUFFER => gl.array_buffer
  | .GL_UNIFORM_BUFFER => gl.uniform_buffer
  | .GL_ELEMENT_ARRAY_BUFFER => (gl.vao gl.bound_vertex_array).element_buffer

/-- The call `glBufferData(target, size, data, usage)`: the buffer bound to `target` gets a
new data store. -/
def glBufferData (target : BufferTarget) (size : Nat) (data : Payload) (usage : Usage)
    (gl : GLContext) : GLContext :=
  { gl with store := fun b =>
      if b = bound_buffer target gl then some ⟨size, data, usage⟩ else gl.store b }

/-- The call `glGetAttribLocation(program, name)`: the location `glBindAttribLocation` gave
the name in that program object, `-1` when there is none. -/
def glGetAttribLocation (program : Nat) (name : String) (gl : GLContext) : Int :=
  match gl.programs program with
  | none => -1
  | some p =>
    match p.attrib_bindings.find? (fun b => b.2 = name) with
    | some b => (b.1 : Int)
    | none => -1

/-- The call `glVertexAttribPointer(loc, size, type, GL_FALSE, 0, 0)`: attribute `loc` of the
bound vertex array reads from the buffer bound to `GL_ARRAY_BUFFER`; a negative index is
an error and changes nothing. -/
def glVertexAttribPointer (loc : Int) (size type : Nat) (gl : GLContext) : GLContext :=
  if loc < 0 then gl
  else
    { gl with vao := fun v =>
        if v = gl.bound_vertex_array then
          { gl.vao v with attribs := fun a =>
              if a = loc.toNat then some ⟨gl.array_buffer, size, type⟩ else (gl.vao v).attribs a }
        else gl.vao v }

/-- The call `glEnableVertexAttribArray(index)` on the bound vertex array. -/
def glEnableVertexAttribArray (index : Nat) (gl : GLContext) : GLContext :=
  { gl with vao := fun v =>
      if v = gl.bound_vertex_array then
        { gl.vao v with enabled := index :: (gl.vao v).enabled }
      else gl.vao v }

/-- The call `glDeleteBuffers(n, names)`: every name that is a buffer in use is released (its
data store goes, the name leaves `buffers` and enters the log); other names are ignored. -/
def glDeleteBuffers : List Nat → GLContext → GLContext
  | [], gl => gl
  | b :: rest, gl =>
    if b ∈ gl.buffers then
      glDeleteBuffers rest
        { gl with buffers := gl.buffers.erase b,
                  released_buffers := gl.released_buffers ++ [b],
                  store := fun n => if n = b then none else gl.store n }
    else glDeleteBuffers rest gl

/-- The call `glDeleteVertexArrays(n, names)`, the release operation of vertex array objects
(the program never calls it). -/
def glDeleteVertexArrays : List Nat → GLContext → GLContext
  | [], gl => gl
  | v :: rest, gl =>
    if v ∈ gl.vertex_arrays then
      glDeleteVertexArrays rest
        { gl with vertex_arrays := gl.vertex_arrays.erase v,
                  released_vertex_arrays := gl.released_vertex_arrays ++ [v],
                  vao := fun n => if n = v then VertexArray.empty else gl.vao n }
    else glDeleteVertexArrays rest gl

/-- The call `glBindBufferRange(GL_UNIFORM_BUFFER, 0, buffer, 0, size)`. -/
def glBindBufferRange (buffer : Nat) (gl : GLContext) : GLContext :=
  { gl with uniform_binding_0 := buffer, uniform_buffer := buffer }

/-- The call `glUseProgram(program)`. -/
def glUseProgram (program : Nat) (gl : GLContext) : GLContext := { gl with current_program := program }

/-- The call `glViewport(0, 0, w, h)`; a negative width or height is an error and changes
nothing. -/
def glViewport (x y w h : Int) (gl : GLContext) : GLContext :=
  if w < 0 ∨ h < 0 then gl else { gl with viewport := (x, y, w, h) }

/-- The call `glutPostRedisplay()`. -/
def glutPostRedisplay (gl : GLContext) : GLContext := { gl with redisplay_posts := gl.redisplay_posts + 1 }

/-- The call `glDrawElements(mode, count, GL_UNSIGNED_SHORT, 0)`. -/
def glDrawElements (mode count : Nat) (gl : GLContext) : GLContext :=
  { gl with draws := gl.draws ++ [⟨mode, count, gl.bound_vertex_array⟩] }

/-- The uniforms of type `vec3` the program writes; `delta_location` and `color_location`
of the source hold the locations of these two. -/
inductive Uniform3 where
  | delta
  | color
deriving DecidableEq

/-- The call `glUniform3fv(location, 1, v)`. -/
def glUniform3fv (location : Uniform3) (v : Vec3) (gl : GLContext) : GLContext :=
  match location with
  | .delta => { gl with delta := v }
  | .color => { gl with color := v }

/-- The call `glUniformMatrix4fv(mvp_location, 1, GL_FALSE, m)`. -/
def glUniformMatrix4fv (m : Mat4) (gl : GLContext) : GLContext := { gl with mvp := m }

/-- The call `glCreateShader(kind)`: a fresh handle with an empty shader object. -/
def glCreateShader (kind : ShaderKind) (gl : GLContext) : Nat × GLContext :=
  (gl.next_object,
   { gl with next_object := gl.next_object + 1,
             shaders := fun h =>
               if h = gl.next_object then some ⟨kind, "", false, ""⟩ else gl.shaders h })

/-- The call `glShaderSource(shader, 1, &chars, &length)`: the whole text becomes the source. -/
def glShaderSource (shader : Nat) (source : String) (gl : GLContext) : GLContext :=
  { gl with shaders := fun h =>
      if h = shader then (gl.shaders h).map (fun o => { o with source := source })
      else gl.shaders h }

/-- The call `glCompileShader(shader)`: the driver decides the status and writes the log. -/
def glCompileShader (drv : Driver) (shader : Nat) (gl : GLContext) : GLContext :=
  { gl with shaders := fun h =>
      if h = shader then
        (gl.shaders h).map (fun o =>
          { o with compile_status := drv.compile_status o.kind o.source,
                   info_log := drv.info_log o.kind o.source })
      else gl.shaders h }

/-- The query `glGetShaderiv(shader, GL_COMPILE_STATUS, &success)`. -/
def glGetShaderiv_COMPILE_STATUS (shader : Nat) (gl : GLContext) : Bool :=
  match gl.shaders shader with
  | some o => o.compile_status
  | none => false

/-- The query `glGetShaderInfoLog(shader, log_size+1, NULL, log)` with the length that
`GL_INFO_LOG_LENGTH` reported: the whole log. -/
def glGetShaderInfoLog (shader : Nat) (gl : GLContext) : String :=
  match gl.shaders shader with
  | some o => o.info_log
  | none => ""

/-- The call `glCreateProgram()`: a fresh handle with an empty program object. -/
def glCreateProgram (gl : GLContext) : Nat × GLContext :=
  (gl.next_object,
   { gl with next_object := gl.next_object + 1,
             programs := fun h =>
               if h = gl.next_object then some ⟨[], [], false⟩ else gl.programs h })

/-- The call `glBindAttribLocation(program, index, name)`. -/
def glBindAttribLocation (program index : Nat) (name : String) (gl : GLContext) : GLContext :=
  { gl with programs := fun h =>
      if h = program then
        (gl.programs h).map (fun p => { p with attrib_bindings := (index, name) :: p.attrib_bindings })
      else gl.programs h }

/-- The call `glAttachShader(program, shader)`. -/
def glAttachShader (program shader : Nat) (gl : GLContext) : GLContext :=
  { gl with programs := fun h =>
      if h = program then
        (gl.programs h).map (fun p => { p with attached := p.attached ++ [shader] })
      else gl.programs h }

/-- The call `glLinkProgram(program)`: the driver decides the link status from the attached
shader objects. -/
def glLinkProgram (drv : Driver) (program : Nat) (gl : GLContext) : GLContext :=
  { gl with programs := fun h =>
      if h = program then
        (gl.programs h).map (fun p =>
          { p with link_status := drv.link_status (p.attached.filterMap gl.shaders) })
      else gl.programs h }

/-- The query `glGetProgramiv(program, GL_LINK_STATUS, &status)` (the program never asks). -/
def glGetProgramiv_LINK_STATUS (program : Nat) (gl : GLContext) : Bool :=
  match gl.programs program with
  | some p => p.link_status
  | none => false

/-! ## Process outcome -/

/-- The text written so far to `std::cout` and `std::cerr`. -/
structure Streams where
  cout : String
  cerr : String
deriving DecidableEq

/-- A function of the program either returns a value or ends the process with `exit(code)`;
either way the streams hold what was printed. -/
inductive Outcome (α : Type) where
  | returned (value : α) (io : Streams)
  | exited (code : Int) (io : Streams)

/-- Sequencing: `exit` ends the process, nothing after it runs. -/
def Outcome.andThen {α β : Type} (o : Outcome α) (k : α → Streams → Outcome β) : Outcome β :=
  match o with
  | .returned v io => k v io
  | .exited code io => .exited code io

/-- The files of the working directory: `none` when a path cannot be opened. -/
abbrev FileSystem := String → Option String

/-! ## The program -/

/-- The macro `VERTEX_SHADER`. -/
def VERTEX_SHADER : String := "animate_sphere.vert"

/-- The macro `FRAGMENT_SHADER`. -/
def FRAGMENT_SHADER : String := "animate_sphere.frag"

/-- The function `read_file` (lines 58-72). -/
def read_file (files : FileSystem) (filename : String) (io : Streams) : Outcome String :=
  match files filename with
  | none =>
    .exited 1 { io with cerr := io.cerr ++ "Couldn\x27t find the source file " ++ filename ++ "\n" }
  | some str => .returned str io

/-- The function `compile_shader` (lines 75-92). -/
def compile_shader (drv : Driver) (shader : Nat) (gl : GLContext) (io : Streams) :
    Outcome GLContext :=
  let gl := glCompileShader drv shader gl
  if glGetShaderiv_COMPILE_STATUS shader gl then .returned gl io
  else .exited 1 { io with cout := io.cout ++ glGetShaderInfoLog shader gl }

/-- The function `init_shaders` (lines 95-135); it returns the program handle. -/
def init_shaders (drv : Driver) (files : FileSystem) (gl : GLContext) (io : Streams) :
    Outcome (Nat × GLContext) :=
  let (vs, gl) := glCreateShader .GL_VERTEX_SHADER gl
  let (fs, gl) := glCreateShader .GL_FRAGMENT_SHADER gl
  (read_file files VERTEX_SHADER io).andThen fun vs_source io =>
  (read_file files FRAGMENT_SHADER io).andThen fun fs_source io =>
  let gl := glShaderSource vs vs_source gl
  let gl := glShaderSource fs fs_source gl
  (compile_shader drv vs gl io).andThen fun gl io =>
  (compile_shader drv fs gl io).andThen fun gl io =>
  let (prog, gl) := glCreateProgram gl
  let gl := glBindAttribLocation prog 0 "in_coords" gl
  let gl := glBindAttribLocation prog 1 "in_normals" gl
  let gl := glAttachShader prog vs gl
  let gl := glAttachShader prog fs gl
  let gl := glLinkProgram drv prog gl
  let gl := glUseProgram prog gl
  .returned (prog, gl) io

/-- The global variables of the program together with the context. -/
structure AppState where
  gl : GLContext
  modelview_matrix : Mat4
  mvp_matrix : Mat4
  mvp_inverse : Mat4
  geom_vec : List ColGeom
  geometries_freed : Bool
  vaos : List Nat
  vbos : List Nat
  ibos : List Nat
  ubo : Nat
  half_height : ℚ
  half_width : ℚ
  num_objects : Nat
  start_time : Int

/-- The globals at program start, before `main` runs. -/
def AppState.initial : AppState :=
  { gl := GLContext.initial,
    modelview_matrix := Mat4.identity, mvp_matrix := Mat4.identity,
    mvp_inverse := Mat4.identity,
    geom_vec := [], geometries_freed := false,
    vaos := [], vbos := [], ibos := [], ubo := 0,
    half_height := 0, half_width := 0, num_objects := 0, start_time := 0 }

/-- The first two statements of `main` (lines 325-326): `readGeometries` delivered `geoms`
and `num_objects = geom_vec.size()`. -/
def read_geometries (geoms : List ColGeom) (s : AppState) : AppState :=
  { s with geom_vec := geoms, num_objects := geoms.length }

/-- The body of the loop of `init_buffers` (lines 158-182) for mesh `i`. -/
def init_buffers_body (program : Nat) (i : Nat) (s : AppState) : Option AppState := do
  let vao ← s.vaos[i]?
  let vbo_position ← s.vbos[2 * i]?
  let vbo_normal ← s.vbos[2 * i + 1]?
  let ibo ← s.ibos[i]?
  let geom ← s.geom_vec[i]?
  let gl := glBindVertexArray vao s.gl
  let gl := glBindBuffer .GL_ARRAY_BUFFER vbo_position gl
  let gl := glBufferData .GL_ARRAY_BUFFER (geom.map "POSITION").size
              (.raw (geom.map "POSITION").data) .GL_STATIC_DRAW gl
  let loc := glGetAttribLocation program "in_coords" gl
  let gl := glVertexAttribPointer loc (geom.map "POSITION").stride (geom.map "POSITION").type gl
  let gl := glEnableVertexAttribArray 0 gl
  let gl := glBindBuffer .GL_ARRAY_BUFFER vbo_normal gl
  let gl := glBufferData .GL_ARRAY_BUFFER (geom.map "NORMAL").size
              (.raw (geom.map "NORMAL").data) .GL_STATIC_DRAW gl
  let loc := glGetAttribLocation program "in_normals" gl
  let gl := glVertexAttribPointer loc (geom.map "NORMAL").stride (geom.map "NORMAL").type gl
  let gl := glEnableVertexAttribArray 1 gl
  let gl := glBindBuffer .GL_ELEMENT_ARRAY_BUFFER ibo gl
  let gl := glBufferData .GL_ELEMENT_ARRAY_BUFFER (geom.index_count * 2)
              (.raw geom.indices) .GL_STATIC_DRAW gl
  some { s with gl := gl }

/-- The loop `for(i = ...; i < num_objects; i++)` of `init_buffers`, with `remaining`
iterations to go from index `i`. -/
def init_buffers_loop (program : Nat) : (remaining i : Nat) → AppState → Option AppState
  | 0, _, s => some s
  | remaining + 1, i, s =>
    (init_buffers_body program i s).bind (init_buffers_loop program remaining (i + 1))

/-- The function `init_buffers` (lines 139-184). -/
def init_buffers (program : Nat) (s : AppState) : Option AppState :=
  let (vaos, gl) := glGenVertexArrays s.num_objects s.gl
  let (vbos, gl) := glGenBuffers (2 * s.num_objects) gl
  let (ibos, gl) := glGenBuffers s.num_objects gl
  init_buffers_loop program s.num_objects 0
    { s with gl := gl, vaos := vaos, vbos := vbos, ibos := ibos }

/-- The function `init_uniforms` (lines 187-225).  The three `glGetUniformLocation` calls
resolve the uniforms `mvp`, `delta` and `color`; the block binding of the program
(`glUniformBlockBinding`) is not part of the tracked state. -/
def init_uniforms (program : Nat) (s : AppState) : AppState :=
  let modelview_matrix := glm_translate Mat4.identity ⟨-2, -2, -5⟩
  let gl := glUniform3fv .delta init_position s.gl
  let gl := glUniform3fv .color color gl
  let params : LightParameters :=
    { diffuse_intensity := ⟨2 / 5, 2 / 5, 2 / 5, 1⟩,
      ambient_intensity := ⟨3 / 10, 3 / 10, 3 / 10, 1⟩,
      light_direction := ⟨0, -1, 1 / 2, 1⟩ }
  let gl := glUseProgram program gl
  let (names, gl) := glGenBuffers 1 gl
  let ubo := names.headD 0
  let gl := glBindBuffer .GL_UNIFORM_BUFFER ubo gl
  let gl := glBufferData .GL_UNIFORM_BUFFER (3 * 16) (.light params) .GL_STREAM_DRAW gl
  let gl := glBindBuffer .GL_UNIFORM_BUFFER 0 gl
  let gl := glUseProgram program gl
  let gl := glUseProgram program gl
  let gl := glBindBufferRange ubo gl
  let gl := glUseProgram program gl
  { s with gl := gl, modelview_matrix := modelview_matrix, ubo := ubo }

/-- The function `init_gl` from line 248 on: shaders, buffers, uniforms.  The window and
fixed-function calls before it do not touch the tracked state. -/
def init_gl (drv : Driver) (files : FileSystem) (s : AppState) (io : Streams) :
    Outcome (Option AppState) :=
  (init_shaders drv files s.gl io).andThen fun r io =>
    .returned ((init_buffers r.1 { s with gl := r.2 }).map (init_uniforms r.1)) io

/-- The function `display` (lines 254-264).  `glClear` and `glutSwapBuffers` leave the tracked
state alone; reading `geom_vec[0]` of an empty vector has no defined result. -/
def display (s : AppState) : Option AppState := do
  let geom ← s.geom_vec[0]?
  some { s with gl := glDrawElements geom.primitive geom.index_count s.gl }

/-- The function `reshape` (lines 267-281). -/
def reshape (w h : Int) (s : AppState) : AppState :=
  let half_width := (w : ℚ) / 2
  let half_height := (h : ℚ) / 2
  let mvp_matrix :=
    (glm_ortho (-(5 / 2)) (5 / 2) (-(5 / 2)) (5 / 2) (7 / 2) 20).mul s.modelview_matrix
  let gl := glUniformMatrix4fv mvp_matrix s.gl
  let mvp_inverse := glm_inverse mvp_matrix
  let gl := glViewport 0 0 w h gl
  { s with gl := gl, half_width := half_width, half_height := half_height,
           mvp_matrix := mvp_matrix, mvp_inverse := mvp_inverse }

/-- The function `update_vertices` (lines 284-304); `current_time` is what
`glutGet(GLUT_ELAPSED_TIME)` returned. -/
def update_vertices (current_time : Int) (s : AppState) : AppState :=
  let dt := delta_t s.start_time current_time
  let dr := delta_r dt
  let gl := if dr.y > 0 then glUniform3fv .delta dr s.gl else s.gl
  let gl := glutPostRedisplay gl
  { s with gl := gl }

/-- Modelled from the spec: `ColladaInterface::freeGeometries`, which is not among the sources
("releases the geometry source's owned memory"). -/
def freeGeometries (s : AppState) : AppState := { s with geometries_freed := true }

/-- The first `n` entries of an id array, as a delete call reads them; reading past the end
has no defined result. -/
def read_ids (n : Nat) (arr : List Nat) : Option (List Nat) :=
  if n ≤ arr.length then some (arr.take n) else none

/-- The function `deallocate` (lines 307-320). -/
def deallocate (s : AppState) : Option AppState := do
  let s := freeGeometries s
  let ibos ← read_ids s.num_objects s.ibos
  let gl := glDeleteBuffers ibos s.gl
  let vbos ← read_ids (2 * s.num_objects) s.vbos
  let gl := glDeleteBuffers vbos gl
  let vaos ← read_ids s.num_objects s.vaos
  let gl := glDeleteBuffers vaos gl
  let gl := glDeleteBuffers [s.ubo] gl
  some { s with gl := gl, ibos := [], vbos := [], vaos := [] }

/-- The events the GLUT main loop dispatches to the three registered callbacks. -/
inductive Event where
  | paint
  | resize (w h : Int)
  | idle (current_time : Int)

/-- One dispatched callback. -/
def dispatch (e : Event) (s : AppState) : Option AppState :=
  match e with
  | .paint => display s
  | .resize w h => some (reshape w h s)
  | .idle current_time => some (update_vertices current_time s)

/-- The main loop on a finite sequence of events. -/
def main_loop : List Event → AppState → Option AppState
  | [], s => some s
  | e :: rest, s => (dispatch e s).bind (main_loop rest)

/-! ## Specification predicates -/

/-- Mesh `g` has been uploaded through vertex array `vao`, attribute buffers `pos` and `nrm`
and index buffer `ibo`: the three buffers hold the mesh's position, normal and index streams,
`ibo` is the element-array buffer of `vao`, and the attribute pointers of `vao` at the
locations `locP` of `in_coords` and `locN` of `in_normals` (where these are valid, and
`in_normals` last) read from `pos` and `nrm`. -/
def mesh_uploaded (gl : GLContext) (locP locN : Int) (vao pos nrm ibo : Nat) (g : ColGeom) :
    Prop :=
  gl.store pos
      = some ⟨(g.map "POSITION").size, .raw (g.map "POSITION").data, .GL_STATIC_DRAW⟩
  ∧ gl.store nrm = some ⟨(g.map "NORMAL").size, .raw (g.map "NORMAL").data, .GL_STATIC_DRAW⟩
  ∧ gl.store ibo = some ⟨g.index_count * 2, .raw g.indices, .GL_STATIC_DRAW⟩
  ∧ (gl.vao vao).element_buffer = ibo
  ∧ (∀ l : Nat, locN = (l : Int) →
      (gl.vao vao).attribs l = some ⟨nrm, (g.map "NORMAL").stride, (g.map "NORMAL").type⟩)
  ∧ (∀ l : Nat, locP = (l : Int) → locN ≠ (l : Int) →
      (gl.vao vao).attribs l
        = some ⟨pos, (g.map "POSITION").stride, (g.map "POSITION").type⟩)

/-! ## Concrete inputs used by the examples -/

/-- A working directory that holds both shader files. -/
def shader_files : FileSystem := fun path =>
  if path = VERTEX_SHADER then some "void main() \x7b gl_Position = vec4(0); \x7d"
  else if path = FRAGMENT_SHADER then some "void main() \x7b \x7d"
  else none

/-- A working directory without any file. -/
def no_files : FileSystem := fun _ => none

/-- A driver that compiles every shader and refuses to link. -/
def link_failing_driver : Driver :=
  { compile_status := fun _ _ => true,
    info_log := fun _ _ => "",
    link_status := fun _ => false }

/-- A driver that rejects fragment shaders with a log and accepts everything else. -/
def fragment_rejecting_driver : Driver :=
  { compile_status := fun kind _ => decide (kind = ShaderKind.GL_VERTEX_SHADER),
    info_log := fun _ _ => "0(1) : error C0000: syntax error\n",
    link_status := fun _ => true }

/-- A driver that compiles and links everything. -/
def accepting_driver : Driver :=
  { compile_status := fun _ _ => true,
    info_log := fun _ _ => "",
    link_status := fun _ => true }

/-- A one-triangle mesh: three positions and three normals of three 4-byte floats each (type
tag 5126 is `GL_FLOAT`), drawn as `GL_TRIANGLES` (tag 4). -/
def triangle_mesh : ColGeom :=
  { map := fun name =>
      if name = "POSITION" then ⟨5126, 36, 3, List.replicate 36 0⟩
      else if name = "NORMAL" then ⟨5126, 36, 3, List.replicate 36 1⟩
      else ⟨0, 0, 0, []⟩,
    primitive := 4,
    index_count := 3,
    indices := [0, 1, 2] }

/-- A second mesh: one line segment (`GL_LINES`, tag 1). -/
def segment_mesh : ColGeom :=
  { map := fun name =>
      if name = "POSITION" then ⟨5126, 24, 3, List.replicate 24 2⟩
      else if name = "NORMAL" then ⟨5126, 24, 3, List.replicate 24 3⟩
      else ⟨0, 0, 0, []⟩,
    primitive := 1,
    index_count := 2,
    indices := [0, 1] }

/-! ## The kinematic formula -/

/-- The components of `delta_r` in closed form. -/
theorem delta_r_eq (t : ℚ) :
    delta_r t = ⟨4 / 5 * t, 1 / 2 + 4 / 5 * t - 1 / 5 * t ^ 2, 0⟩ := by
  simp only [delta_r, Vec3.add, Vec3.smul, init_position, init_velocity, acceleration,
    INIT_POSITION, INIT_VELOCITY, ACCELERATION, Vec3.mk.injEq]
  refine ⟨by ring, by ring, by ring⟩

/-- The elapsed time is the exact quotient of the two time stamps. -/
theorem delta_t_eq (start now : Int) : delta_t start now = ((now : ℚ) - (start : ℚ)) / 1000 := by
  simp [delta_t]

/-- C1: for integer millisecond time stamps `start ≤ now` and the exact rational
`t = (now - start)/1000`, the displacement `update_vertices` computes is
`init_position + t*init_velocity + 0.5*t^2*acceleration` for the constants
`(0, 0.5, 0)`, `(0.8, 0.8, 0)`, `(0, -0.4, 0)`, that is `(0.8 t, 0.5 + 0.8 t - 0.2 t^2, 0)`;
its `y` is `1.1` at `t = 1` and `1.3` at `t = 2`. -/
theorem displacement_closed_form (start now : Int) (_h : start ≤ now) :
    delta_r (delta_t start now)
        = ⟨0 + (((now : ℚ) - start) / 1000) * (4 / 5) + 1 / 2 * (((now : ℚ) - start) / 1000) ^ 2 * 0,
           1 / 2 + (((now : ℚ) - start) / 1000) * (4 / 5)
             + 1 / 2 * (((now : ℚ) - start) / 1000) ^ 2 * (-(2 / 5)),
           0 + (((now : ℚ) - start) / 1000) * 0 + 1 / 2 * (((now : ℚ) - start) / 1000) ^ 2 * 0⟩
    ∧ delta_r (delta_t start now)
        = ⟨4 / 5 * (((now : ℚ) - start) / 1000),
           1 / 2 + 4 / 5 * (((now : ℚ) - start) / 1000)
             - 1 / 5 * (((now : ℚ) - start) / 1000) ^ 2,
           0⟩
    ∧ (now - start = 1000 → (delta_r (delta_t start now)).y = 11 / 10)
    ∧ (now - start = 2000 → (delta_r (delta_t start now)).y = 13 / 10) := by
  refine ⟨?_, ?_, ?_, ?_⟩
  · rw [delta_r_eq, delta_t_eq, Vec3.mk.injEq]
    refine ⟨by ring, by ring, by ring⟩
  · rw [delta_r_eq, delta_t_eq]
  · intro h
    rw [delta_r_eq, delta_t, h]
    norm_num
  · intro h
    rw [delta_r_eq, delta_t, h]
    norm_num

/-- Witness for C1: one second and two seconds after a start at 250 ms. -/
theorem displacement_closed_form_witness :
    (250 : Int) ≤ 1250 ∧ (delta_r (delta_t 250 1250)).y = 11 / 10
      ∧ (delta_r (delta_t 250 2250)).y = 13 / 10 :=
  ⟨by decide, (displacement_closed_form 250 1250 (by decide)).2.2.1 (by decide),
    (displacement_closed_form 250 2250 (by decide)).2.2.2 (by decide)⟩

/-! ## The idle callback -/

/-- A tick posts one redisplay. -/
theorem update_vertices_posts (now : Int) (s : AppState) :
    (update_vertices now s).gl.redisplay_posts = s.gl.redisplay_posts + 1 := by
  unfold update_vertices
  by_cases hy : (delta_r (delta_t s.start_time now)).y > 0
  · simp only [hy, if_true, glutPostRedisplay, glUniform3fv]
  · simp only [hy, if_false, glutPostRedisplay]

/-- The delta uniform after a tick. -/
theorem update_vertices_delta (now : Int) (s : AppState) :
    (update_vertices now s).gl.delta
      = (if 0 < (delta_r (delta_t s.start_time now)).y
          then delta_r (delta_t s.start_time now) else s.gl.delta) := by
  unfold update_vertices
  by_cases hy : (delta_r (delta_t s.start_time now)).y > 0
  · have hy2 : 0 < (delta_r (delta_t s.start_time now)).y := hy
    simp only [hy, hy2, if_true, glutPostRedisplay, glUniform3fv]
  · have hy2 : ¬ 0 < (delta_r (delta_t s.start_time now)).y := hy
    simp only [hy, hy2, if_false, glutPostRedisplay]

/-- C2, as stated, fails: five seconds after the start the displacement has
`y = -0.5 ≤ 0`, and the tick still issues its redraw request. -/
theorem redraw_iff_positive_counterexample :
    (delta_r (delta_t AppState.initial.start_time 5000)).y = -(1 / 2)
    ∧ ¬ ((update_vertices 5000 AppState.initial).gl.redisplay_posts
            = AppState.initial.gl.redisplay_posts + 1
          ↔ 0 < (delta_r (delta_t AppState.initial.start_time 5000)).y) := by
  have hy : (delta_r (delta_t AppState.initial.start_time 5000)).y = -(1 / 2) := by
    rw [delta_r_eq, delta_t_eq]
    norm_num [AppState.initial]
  refine ⟨hy, fun h => ?_⟩
  have h5 := h.1 (update_vertices_posts 5000 AppState.initial)
  rw [hy] at h5
  norm_num at h5

/-- C2, amended: every tick of `update_vertices` issues exactly one redraw request, whatever
the sign of the displacement's `y`; the guard `y > 0` decides only whether the delta uniform is
written.  At `t = 5 s`, where `y = -0.5`, the uniform is left alone and the redraw request is
issued all the same. -/
theorem redraw_every_tick (s : AppState) (now : Int) :
    (update_vertices now s).gl.redisplay_posts = s.gl.redisplay_posts + 1
    ∧ (update_vertices now s).gl.delta
        = (if 0 < (delta_r (delta_t s.start_time now)).y
            then delta_r (delta_t s.start_time now) else s.gl.delta)
    ∧ (delta_r (delta_t 0 5000)).y = -(1 / 2) := by
  refine ⟨update_vertices_posts now s, update_vertices_delta now s, ?_⟩
  rw [delta_r_eq, delta_t_eq]
  norm_num

/-- A tick never changes the start time stamp. -/
theorem update_vertices_start_time (now : Int) (s : AppState) :
    (update_vertices now s).start_time = s.start_time := rfl

/-- Earlier ticks never change the start time stamp. -/
theorem ticks_start_time (ts : List Int) (s : AppState) :
    (ts.foldl (fun st t => update_vertices t st) s).start_time = s.start_time := by
  induction ts generalizing s with
  | nil => rfl
  | cons t ts ih => rw [List.foldl_cons, ih, update_vertices_start_time]

/-- C3: after a tick the delta uniform holds exactly the computed displacement when its `y`
is strictly positive and is unchanged when `y ≤ 0`; the displacement and the decision are
functions of the start time stamp and the current tick's time alone: whatever ticks `ts`
came before, they do not enter. -/
theorem delta_uniform_after_tick (s : AppState) (ts : List Int) (now : Int) :
    (update_vertices now (ts.foldl (fun st t => update_vertices t st) s)).gl.delta
      = (if 0 < (delta_r (delta_t s.start_time now)).y
          then delta_r (delta_t s.start_time now)
          else (ts.foldl (fun st t => update_vertices t st) s).gl.delta) := by
  have h := update_vertices_delta now (ts.foldl (fun st t => update_vertices t st) s)
  rw [ticks_start_time] at h
  exact h

/-- C9: once the guard has failed it fails for ever: for exact elapsed times
`0 ≤ t1 ≤ t2`, `y(t1) ≤ 0` implies `y(t2) ≤ 0`, where `y(t) = 0.5 + 0.8 t - 0.2 t^2` is the
`y` of the displacement; equivalently the times `t ≥ 0` at which the guard `y > 0` holds form
an initial interval. -/
theorem guard_never_recovers (t1 t2 : ℚ) (h0 : 0 ≤ t1) (h12 : t1 ≤ t2) :
    (delta_r t1).y = 1 / 2 + 4 / 5 * t1 - 1 / 5 * t1 ^ 2
    ∧ (delta_r t2).y = 1 / 2 + 4 / 5 * t2 - 1 / 5 * t2 ^ 2
    ∧ ((delta_r t1).y ≤ 0 → (delta_r t2).y ≤ 0)
    ∧ (0 < (delta_r t2).y → 0 < (delta_r t1).y) := by
  have key : (delta_r t1).y ≤ 0 → (delta_r t2).y ≤ 0 := by
    rw [delta_r_eq, delta_r_eq]
    intro h
    show 1 / 2 + 4 / 5 * t2 - 1 / 5 * t2 ^ 2 ≤ 0
    have h1 : 1 / 2 + 4 / 5 * t1 - 1 / 5 * t1 ^ 2 ≤ 0 := h
    have h4 : 4 < t1 := by
      by_contra hc
      push_neg at hc
      nlinarith [mul_nonneg h0 (sub_nonneg.mpr hc)]
    nlinarith [mul_nonneg (sub_nonneg.mpr h12) (by linarith : (0 : ℚ) ≤ t1 + t2 - 4)]
  refine ⟨by rw [delta_r_eq], by rw [delta_r_eq], key, ?_⟩
  intro h2
  by_contra hc
  exact absurd (key (not_lt.mp hc)) (not_le.mpr h2)

/-- Witness for C9: the guard has failed at `t = 5` and is still failed at `t = 6`. -/
theorem guard_never_recovers_witness :
    (0 : ℚ) ≤ 5 ∧ (5 : ℚ) ≤ 6 ∧ (delta_r 5).y ≤ 0 ∧ (delta_r 6).y ≤ 0 :=
  have h5 : (delta_r 5).y ≤ 0 := by rw [delta_r_eq]; norm_num
  ⟨by norm_num, by norm_num, h5,
    (guard_never_recovers 5 6 (by norm_num) (by norm_num)).2.2.1 h5⟩

/-! ## Reading and compiling the shaders -/

/-- C5: for every path, when the file cannot be opened `read_file` ends the process with exit
code 1, having written to the error stream (and only there) a diagnostic that contains the
file name; when the file can be opened it returns exactly the file's contents and writes
nothing. -/
theorem read_file_outcome (files : FileSystem) (filename : String) (io : Streams) :
    (files filename = none →
      read_file files filename io
        = .exited 1 ⟨io.cout, io.cerr ++ "Couldn\x27t find the source file " ++ filename ++ "\n"⟩)
    ∧ (∀ text, files filename = some text → read_file files filename io = .returned text io) := by
  constructor
  · intro h
    simp only [read_file, h]
  · intro text h
    simp only [read_file, h]

/-- Witness for C5: a missing file and a present file. -/
theorem read_file_outcome_witness :
    read_file no_files "animate_sphere.vert" ⟨"", ""⟩
        = .exited 1 ⟨"", "Couldn\x27t find the source file animate_sphere.vert\n"⟩
    ∧ read_file shader_files "animate_sphere.frag" ⟨"", ""⟩
        = .returned "void main() \x7b \x7d" ⟨"", ""⟩ :=
  ⟨(read_file_outcome no_files "animate_sphere.vert" ⟨"", ""⟩).1 rfl,
   (read_file_outcome shader_files "animate_sphere.frag" ⟨"", ""⟩).2 _ (by decide)⟩

/-- The outcome of `compile_shader` on a shader object that exists. -/
theorem compile_shader_eq (drv : Driver) (shader : Nat) (gl : GLContext) (io : Streams)
    (o : ShaderObject) (h : gl.shaders shader = some o) :
    compile_shader drv shader gl io
      = if drv.compile_status o.kind o.source then .returned (glCompileShader drv shader gl) io
        else .exited 1 ⟨io.cout ++ drv.info_log o.kind o.source, io.cerr⟩ := by
  simp [compile_shader, glGetShaderiv_COMPILE_STATUS, glGetShaderInfoLog, glCompileShader, h]

/-- C4, as stated, fails: with both shader files present and compiling, and a link that
fails, `init_shaders` returns a program handle, exits with no code and prints nothing; the
returned program is the one whose link failed. -/
theorem link_failure_counterexample :
    ∃ r, init_shaders link_failing_driver shader_files GLContext.initial ⟨"", ""⟩
          = .returned r ⟨"", ""⟩
      ∧ r.1 = 3
      ∧ glGetProgramiv_LINK_STATUS r.1 r.2 = false := by
  refine ⟨_, rfl, rfl, rfl⟩

/-- C4, amended: with both shader files readable, the shader stage ends the process with exit
code 1, having printed the compiler's log, whenever the vertex shader or the fragment shader
fails to compile; whenever both compile it returns the program handle and prints nothing,
whether the link succeeded or not: the link status, which the returned program carries as
the driver set it, is never looked at. -/
theorem init_shaders_outcome (drv : Driver) (files : FileSystem) (gl : GLContext) (io : Streams)
    (vs_source fs_source : String)
    (hv : files VERTEX_SHADER = some vs_source) (hf : files FRAGMENT_SHADER = some fs_source) :
    (drv.compile_status .GL_VERTEX_SHADER vs_source = false →
      init_shaders drv files gl io
        = .exited 1 ⟨io.cout ++ drv.info_log .GL_VERTEX_SHADER vs_source, io.cerr⟩)
    ∧ (drv.compile_status .GL_VERTEX_SHADER vs_source = true →
        drv.compile_status .GL_FRAGMENT_SHADER fs_source = false →
      init_shaders drv files gl io
        = .exited 1 ⟨io.cout ++ drv.info_log .GL_FRAGMENT_SHADER fs_source, io.cerr⟩)
    ∧ (drv.compile_status .GL_VERTEX_SHADER vs_source = true →
        drv.compile_status .GL_FRAGMENT_SHADER fs_source = true →
      ∃ gl1, init_shaders drv files gl io = .returned (gl.next_object + 2, gl1) io
        ∧ glGetProgramiv_LINK_STATUS (gl.next_object + 2) gl1
            = drv.link_status
                [⟨.GL_VERTEX_SHADER, vs_source, true, drv.info_log .GL_VERTEX_SHADER vs_source⟩,
                 ⟨.GL_FRAGMENT_SHADER, fs_source, true,
                   drv.info_log .GL_FRAGMENT_SHADER fs_source⟩]) := by
  refine ⟨?_, ?_, ?_⟩
  · intro h1
    simp [init_shaders, read_file, hv, hf, Outcome.andThen, compile_shader, glCreateShader,
      glShaderSource, glCompileShader, glGetShaderiv_COMPILE_STATUS, glGetShaderInfoLog, h1]
  · intro h1 h2
    simp [init_shaders, read_file, hv, hf, Outcome.andThen, compile_shader, glCreateShader,
      glShaderSource, glCompileShader, glGetShaderiv_COMPILE_STATUS, glGetShaderInfoLog, h1, h2]
  · intro h1 h2
    refine ⟨glUseProgram (gl.next_object + 2) (glLinkProgram drv (gl.next_object + 2)
      (glAttachShader (gl.next_object + 2) (gl.next_object + 1)
      (glAttachShader (gl.next_object + 2) gl.next_object
      (glBindAttribLocation (gl.next_object + 2) 1 "in_normals"
      (glBindAttribLocation (gl.next_object + 2) 0 "in_coords"
      (glCreateProgram
      (glCompileShader drv (gl.next_object + 1) (glCompileShader drv gl.next_object
      (glShaderSource (gl.next_object + 1) fs_source (glShaderSource gl.next_object vs_source
      (glCreateShader .GL_FRAGMENT_SHADER
        (glCreateShader .GL_VERTEX_SHADER gl).2).2))))).2))))), ?_, ?_⟩
    · simp [init_shaders, read_file, hv, hf, Outcome.andThen, compile_shader, glCreateShader,
        glShaderSource, glCompileShader, glGetShaderiv_COMPILE_STATUS, glGetShaderInfoLog, h1, h2,
        glCreateProgram]
    · simp [glGetProgramiv_LINK_STATUS, glUseProgram, glLinkProgram, glAttachShader,
        glBindAttribLocation, glCreateProgram, glCompileShader, glShaderSource, glCreateShader,
        h1, h2]

/-- Witness for C4: the fragment shader is rejected, the process exits with code 1 and the
log is on the output stream. -/
theorem init_shaders_outcome_witness :
    init_shaders fragment_rejecting_driver shader_files GLContext.initial ⟨"", ""⟩
      = .exited 1 ⟨"0(1) : error C0000: syntax error\n", ""⟩ :=
  (init_shaders_outcome fragment_rejecting_driver shader_files GLContext.initial ⟨"", ""⟩
    _ _ rfl rfl).2.1 rfl rfl

/-! ## The resize callback -/

/-- No callback writes the model-view matrix. -/
theorem dispatch_modelview (e : Event) (s s1 : AppState) (h : dispatch e s = some s1) :
    s1.modelview_matrix = s.modelview_matrix := by
  cases e with
  | paint =>
    simp only [dispatch, display] at h
    cases hg : s.geom_vec[0]? with
    | none => simp [hg] at h
    | some g =>
      simp [hg] at h
      rw [← h]
  | resize w h0 =>
    simp only [dispatch, Option.some.injEq] at h
    rw [← h]
    rfl
  | idle t =>
    simp only [dispatch, Option.some.injEq] at h
    rw [← h]
    rfl

/-- The main loop never writes the model-view matrix. -/
theorem main_loop_modelview (evs : List Event) (s s1 : AppState)
    (h : main_loop evs s = some s1) : s1.modelview_matrix = s.modelview_matrix := by
  induction evs generalizing s with
  | nil =>
    simp only [main_loop, Option.some.injEq] at h
    rw [h]
  | cons e rest ih =>
    simp only [main_loop] at h
    cases hd : dispatch e s with
    | none => simp [hd] at h
    | some s2 =>
      rw [hd] at h
      simp only [Option.bind] at h
      rw [ih s2 h, dispatch_modelview e s s2 hd]

/-- The product `ortho(-2.5, 2.5, -2.5, 2.5, 3.5, 20) * translate(-2, -2, -5)`, entry by
entry. -/
theorem mvp_value :
    (glm_ortho (-(5 / 2)) (5 / 2) (-(5 / 2)) (5 / 2) (7 / 2) 20).mul
        (glm_translate Mat4.identity ⟨-2, -2, -5⟩)
      = ⟨⟨2 / 5, 0, 0, 0⟩, ⟨0, 2 / 5, 0, 0⟩, ⟨0, 0, -(4 / 33), 0⟩,
         ⟨-(4 / 5), -(4 / 5), -(9 / 11), 1⟩⟩ := by
  simp only [glm_ortho, glm_translate, Mat4.identity, Mat4.mul, Mat4.mulVec, Vec4.add,
    Vec4.scale, Mat4.mk.injEq, Vec4.mk.injEq]
  norm_num

/-- Calling `reshape` twice with the same size is calling it once. -/
theorem reshape_idem (w h : Int) (s : AppState) :
    reshape w h (reshape w h s) = reshape w h s := by
  by_cases hneg : w < 0 ∨ h < 0
  · simp [reshape, glViewport, glUniformMatrix4fv, hneg]
  · simp [reshape, glViewport, glUniformMatrix4fv, hneg]

/-- C8: in every state the main loop can reach after `init_uniforms`, for every window size
`(w, h)`, `reshape` sets the MVP matrix (and the `mvp` uniform) to
`ortho(-2.5, 2.5, -2.5, 2.5, 3.5, 20) * translate(-2, -2, -5)`, a value that is the same for
every other size `(w2, h2)`; and `reshape` is idempotent: a second call with the same `(w, h)`
leaves the whole state (MVP matrix, its inverse, `half_width`, `half_height`, viewport) as the
first call left it. -/
theorem reshape_fixed_projection (program : Nat) (s s1 : AppState) (evs : List Event)
    (hreach : main_loop evs (init_uniforms program s) = some s1) (w h w2 h2 : Int) :
    (reshape w h s1).mvp_matrix
        = (glm_ortho (-(5 / 2)) (5 / 2) (-(5 / 2)) (5 / 2) (7 / 2) 20).mul
            (glm_translate Mat4.identity ⟨-2, -2, -5⟩)
    ∧ (reshape w h s1).gl.mvp = (reshape w h s1).mvp_matrix
    ∧ (reshape w h s1).mvp_matrix = (reshape w2 h2 s1).mvp_matrix
    ∧ (reshape w h s1).mvp_inverse = glm_inverse (reshape w h s1).mvp_matrix
    ∧ reshape w h (reshape w h s1) = reshape w h s1 := by
  have hm : s1.modelview_matrix = glm_translate Mat4.identity ⟨-2, -2, -5⟩ := by
    rw [main_loop_modelview evs _ s1 hreach]
    rfl
  refine ⟨?_, ?_, ?_, ?_, reshape_idem w h s1⟩
  · simp only [reshape, hm]
  · by_cases hneg : w < 0 ∨ h < 0
    · simp [reshape, glViewport, glUniformMatrix4fv, hneg]
    · simp [reshape, glViewport, glUniformMatrix4fv, hneg]
  · simp only [reshape]
  · simp only [reshape]

/-- Witness for C8: a resize to 300 x 300 after start-up, one tick and an earlier resize. -/
theorem reshape_fixed_projection_witness :
    (reshape 300 300
        (update_vertices 16 (reshape 640 480 (init_uniforms 3 AppState.initial)))).mvp_matrix
      = (glm_ortho (-(5 / 2)) (5 / 2) (-(5 / 2)) (5 / 2) (7 / 2) 20).mul
          (glm_translate Mat4.identity ⟨-2, -2, -5⟩) :=
  (reshape_fixed_projection 3 AppState.initial _ [Event.resize 640 480, Event.idle 16] rfl
    300 300 300 300).1

/-! ## Teardown -/

/-- The call `glDeleteBuffers` never touches a vertex array, whatever names it is given. -/
theorem glDeleteBuffers_vertex_arrays (names : List Nat) :
    ∀ gl : GLContext, (glDeleteBuffers names gl).vertex_arrays = gl.vertex_arrays
      ∧ (glDeleteBuffers names gl).released_vertex_arrays = gl.released_vertex_arrays := by
  induction names with
  | nil => intro gl; exact ⟨rfl, rfl⟩
  | cons b rest ih =>
    intro gl
    by_cases hb : b ∈ gl.buffers
    · simp only [glDeleteBuffers, hb, if_true]
      exact ih _
    · simp only [glDeleteBuffers, hb, if_false]
      exact ih _

/-- Whenever `deallocate` runs to the end, every vertex array that was in use is still in
use and none has been released. -/
theorem deallocate_vertex_arrays (s s2 : AppState) (h : deallocate s = some s2) :
    s2.gl.vertex_arrays = s.gl.vertex_arrays
    ∧ s2.gl.released_vertex_arrays = s.gl.released_vertex_arrays := by
  simp only [deallocate, freeGeometries, Option.bind_eq_bind] at h
  cases h1 : read_ids s.num_objects s.ibos with
  | none => simp [h1] at h
  | some ibos =>
    cases h2 : read_ids (2 * s.num_objects) s.vbos with
    | none => simp [h1, h2] at h
    | some vbos =>
      cases h3 : read_ids s.num_objects s.vaos with
      | none => simp [h1, h2, h3] at h
      | some vaos =>
        simp only [h1, h2, h3, Option.some_bind, Option.some.injEq] at h
        rw [← h]
        simp only [glDeleteBuffers_vertex_arrays, and_self]

/-- C6 at one mesh: start-up creates vertex array 1, attribute buffers 1 and 2, index buffer 3
and uniform buffer 4; `deallocate` then releases the four buffers, each once, and hands the
vertex array's name to `glDeleteBuffers`, where it names no buffer in use: the vertex array
is still in use after teardown and no vertex array has been released. -/
theorem deallocate_keeps_vertex_array :
    ∃ s1 s2, init_gl accepting_driver shader_files
          (read_geometries [triangle_mesh] AppState.initial) ⟨"", ""⟩
        = .returned (some s1) ⟨"", ""⟩
      ∧ deallocate s1 = some s2
      ∧ s1.vaos = [1] ∧ s1.vbos = [1, 2] ∧ s1.ibos = [3] ∧ s1.ubo = 4
      ∧ s1.gl.vertex_arrays = [1] ∧ s1.gl.buffers = [1, 2, 3, 4]
      ∧ s2.gl.buffers = [] ∧ s2.gl.released_buffers = [3, 1, 2, 4]
      ∧ s2.gl.vertex_arrays = [1] ∧ s2.gl.released_vertex_arrays = [] := by
  refine ⟨_, _, rfl, rfl, ?_⟩
  decide

/-! ## The buffer stage -/

/-- The call `glVertexAttribPointer` as one update of the attribute table of the bound
vertex array: with a negative location the table is rewritten to itself. -/
theorem glVertexAttribPointer_eq (loc : Int) (size type : Nat) (gl : GLContext) :
    glVertexAttribPointer loc size type gl
      = { gl with vao := fun v =>
            if v = gl.bound_vertex_array then
              { gl.vao v with attribs := fun a =>
                  if 0 ≤ loc ∧ a = loc.toNat then some ⟨gl.array_buffer, size, type⟩
                  else (gl.vao v).attribs a }
            else gl.vao v } := by
  unfold glVertexAttribPointer
  by_cases h : loc < 0
  · have h2 : ¬ 0 ≤ loc := by omega
    simp only [h, if_true, h2, false_and, if_false]
    cases gl with
    | mk a1 a2 a3 a4 a5 a6 a7 a8 a9 a10 vao a12 a13 a14 a15 a16 a17 a18 a19 a20 a21 a22 =>
      simp only [GLContext.mk.injEq, true_and, and_true]
      funext v
      by_cases hv : v = a8
      · simp [hv]
      · simp [hv]
  · have h2 : 0 ≤ loc := by omega
    simp only [h, if_false, h2, true_and]

/-- The location of an attribute depends on the program table only. -/
theorem glGetAttribLocation_congr (program : Nat) (name : String) (gl1 gl2 : GLContext)
    (h : gl1.programs = gl2.programs) :
    glGetAttribLocation program name gl1 = glGetAttribLocation program name gl2 := by
  simp only [glGetAttribLocation, h]

/-- Binding a vertex array does not move attribute locations. -/
theorem glGetAttribLocation_glBindVertexArray (program : Nat) (name : String) (v : Nat)
    (gl : GLContext) :
    glGetAttribLocation program name (glBindVertexArray v gl)
      = glGetAttribLocation program name gl :=
  glGetAttribLocation_congr program name _ _ rfl

/-- Binding a buffer does not move attribute locations. -/
theorem glGetAttribLocation_glBindBuffer (program : Nat) (name : String) (t : BufferTarget)
    (b : Nat) (gl : GLContext) :
    glGetAttribLocation program name (glBindBuffer t b gl)
      = glGetAttribLocation program name gl :=
  glGetAttribLocation_congr program name _ _ (by cases t <;> rfl)

/-- Filling a buffer does not move attribute locations. -/
theorem glGetAttribLocation_glBufferData (program : Nat) (name : String) (t : BufferTarget)
    (size : Nat) (data : Payload) (u : Usage) (gl : GLContext) :
    glGetAttribLocation program name (glBufferData t size data u gl)
      = glGetAttribLocation program name gl :=
  glGetAttribLocation_congr program name _ _ rfl

/-- Setting an attribute pointer does not move attribute locations. -/
theorem glGetAttribLocation_glVertexAttribPointer (program : Nat) (name : String) (loc : Int)
    (size type : Nat) (gl : GLContext) :
    glGetAttribLocation program name (glVertexAttribPointer loc size type gl)
      = glGetAttribLocation program name gl :=
  glGetAttribLocation_congr program name _ _ (by rw [glVertexAttribPointer_eq])

/-- Enabling an attribute does not move attribute locations. -/
theorem glGetAttribLocation_glEnableVertexAttribArray (program : Nat) (name : String)
    (index : Nat) (gl : GLContext) :
    glGetAttribLocation program name (glEnableVertexAttribArray index gl)
      = glGetAttribLocation program name gl :=
  glGetAttribLocation_congr program name _ _ rfl

/-- One iteration of the loop of `init_buffers`: what it writes and what it leaves alone. -/
theorem init_buffers_body_spec (program i : Nat) (s : AppState) (vao pos nrm ibo : Nat)
    (g : ColGeom) (hv : s.vaos[i]? = some vao) (hp : s.vbos[2 * i]? = some pos)
    (hn : s.vbos[2 * i + 1]? = some nrm) (hi : s.ibos[i]? = some ibo)
    (hg : s.geom_vec[i]? = some g) :
    ∃ s1, init_buffers_body program i s = some s1
      ∧ s1.vaos = s.vaos ∧ s1.vbos = s.vbos ∧ s1.ibos = s.ibos ∧ s1.geom_vec = s.geom_vec
      ∧ s1.num_objects = s.num_objects
      ∧ s1.gl.bound_vertex_array = vao
      ∧ (s1.gl.vao vao).element_buffer = ibo
      ∧ (∀ v, v ≠ vao → s1.gl.vao v = s.gl.vao v)
      ∧ (∀ b, s1.gl.store b
          = if b = ibo then some ⟨g.index_count * 2, .raw g.indices, .GL_STATIC_DRAW⟩
            else if b = nrm then
              some ⟨(g.map "NORMAL").size, .raw (g.map "NORMAL").data, .GL_STATIC_DRAW⟩
            else if b = pos then
              some ⟨(g.map "POSITION").size, .raw (g.map "POSITION").data, .GL_STATIC_DRAW⟩
            else s.gl.store b)
      ∧ s1.gl.vertex_arrays = s.gl.vertex_arrays ∧ s1.gl.buffers = s.gl.buffers
      ∧ s1.gl.released_vertex_arrays = s.gl.released_vertex_arrays
      ∧ s1.gl.released_buffers = s.gl.released_buffers
      ∧ s1.gl.next_buffer = s.gl.next_buffer
      ∧ s1.gl.draws = s.gl.draws
      ∧ s1.gl.programs = s.gl.programs
      ∧ (∀ l : Nat, glGetAttribLocation program "in_normals" s.gl = (l : Int) →
          (s1.gl.vao vao).attribs l
            = some ⟨nrm, (g.map "NORMAL").stride, (g.map "NORMAL").type⟩)
      ∧ (∀ l : Nat, glGetAttribLocation program "in_coords" s.gl = (l : Int) →
          glGetAttribLocation program "in_normals" s.gl ≠ (l : Int) →
          (s1.gl.vao vao).attribs l
            = some ⟨pos, (g.map "POSITION").stride, (g.map "POSITION").type⟩) := by
  simp only [init_buffers_body, hv, hp, hn, hi, hg, Option.bind_eq_bind, Option.some_bind,
    glGetAttribLocation_glBindVertexArray, glGetAttribLocation_glBindBuffer,
    glGetAttribLocation_glBufferData, glGetAttribLocation_glVertexAttribPointer,
    glGetAttribLocation_glEnableVertexAttribArray]
  generalize glGetAttribLocation program "in_coords" s.gl = locP
  generalize glGetAttribLocation program "in_normals" s.gl = locN
  refine ⟨_, rfl, rfl, rfl, rfl, rfl, rfl, ?_, ?_, ?_, ?_, ?_, ?_, ?_, ?_, ?_, ?_, ?_, ?_, ?_⟩
  · simp only [glVertexAttribPointer_eq, glBufferData, glBindBuffer, glEnableVertexAttribArray,
      bound_buffer, glBindVertexArray]
  · simp only [glVertexAttribPointer_eq, glBufferData, glBindBuffer, glEnableVertexAttribArray,
      bound_buffer, glBindVertexArray, if_true]
  · intro v hv
    simp only [glVertexAttribPointer_eq, glBufferData, glBindBuffer, glEnableVertexAttribArray,
      bound_buffer, glBindVertexArray, hv, if_false]
  · intro b
    simp only [glVertexAttribPointer_eq, glBufferData, glBindBuffer, glEnableVertexAttribArray,
      bound_buffer, glBindVertexArray, if_true]
  · simp only [glVertexAttribPointer_eq, glBufferData, glBindBuffer, glEnableVertexAttribArray,
      bound_buffer, glBindVertexArray]
  · simp only [glVertexAttribPointer_eq, glBufferData, glBindBuffer, glEnableVertexAttribArray,
      bound_buffer, glBindVertexArray]
  · simp only [glVertexAttribPointer_eq, glBufferData, glBindBuffer, glEnableVertexAttribArray,
      bound_buffer, glBindVertexArray]
  · simp only [glVertexAttribPointer_eq, glBufferData, glBindBuffer, glEnableVertexAttribArray,
      bound_buffer, glBindVertexArray]
  · simp only [glVertexAttribPointer_eq, glBufferData, glBindBuffer, glEnableVertexAttribArray,
      bound_buffer, glBindVertexArray]
  · simp only [glVertexAttribPointer_eq, glBufferData, glBindBuffer, glEnableVertexAttribArray,
      bound_buffer, glBindVertexArray]
  · simp only [glVertexAttribPointer_eq, glBufferData, glBindBuffer, glEnableVertexAttribArray,
      bound_buffer, glBindVertexArray]
  · intro l hl
    subst hl
    simp [glVertexAttribPointer_eq, glBufferData, glBindBuffer, glEnableVertexAttribArray,
      bound_buffer, glBindVertexArray]
  · intro l hl hne
    subst hl
    have hno : ¬ (0 ≤ locN ∧ l = locN.toNat) := by omega
    simp [glVertexAttribPointer_eq, glBufferData, glBindBuffer, glEnableVertexAttribArray,
      bound_buffer, glBindVertexArray, hno]

/-- The predicate `mesh_uploaded` looks at three data stores and one vertex array only. -/
theorem mesh_uploaded_congr (gl1 gl2 : GLContext) (locP locN : Int) (vao pos nrm ibo : Nat)
    (g : ColGeom) (hpos : gl2.store pos = gl1.store pos) (hnrm : gl2.store nrm = gl1.store nrm)
    (hibo : gl2.store ibo = gl1.store ibo) (hvao : gl2.vao vao = gl1.vao vao)
    (h : mesh_uploaded gl1 locP locN vao pos nrm ibo g) :
    mesh_uploaded gl2 locP locN vao pos nrm ibo g := by
  unfold mesh_uploaded at h ⊢
  rw [hpos, hnrm, hibo, hvao]
  exact h

/-- The loop of `init_buffers` from index `i` on, over id arrays that hold consecutive names:
it runs to the end, leaves bound the vertex array of the last mesh, uploads every mesh from
`i` on and keeps the meshes before `i` as they were. -/
theorem init_buffers_loop_spec (program N nv nb : Nat) :
    ∀ (k i : Nat) (s : AppState), i + k = N → s.vaos = List.range' nv N →
      s.vbos = List.range' nb (2 * N) → s.ibos = List.range' (nb + 2 * N) N →
      s.geom_vec.length = N →
      ∃ s1, init_buffers_loop program k i s = some s1
        ∧ s1.vaos = s.vaos ∧ s1.vbos = s.vbos ∧ s1.ibos = s.ibos ∧ s1.geom_vec = s.geom_vec
        ∧ s1.num_objects = s.num_objects
        ∧ s1.gl.bound_vertex_array = (if k = 0 then s.gl.bound_vertex_array else nv + (N - 1))
        ∧ s1.gl.vertex_arrays = s.gl.vertex_arrays ∧ s1.gl.buffers = s.gl.buffers
        ∧ s1.gl.released_vertex_arrays = s.gl.released_vertex_arrays
        ∧ s1.gl.released_buffers = s.gl.released_buffers
        ∧ s1.gl.next_buffer = s.gl.next_buffer
        ∧ s1.gl.draws = s.gl.draws
        ∧ s1.gl.programs = s.gl.programs
        ∧ (∀ b, b < nb ∨ nb + 3 * N ≤ b → s1.gl.store b = s.gl.store b)
        ∧ (∀ j g, s.geom_vec[j]? = some g →
            (i ≤ j → mesh_uploaded s1.gl (glGetAttribLocation program "in_coords" s.gl)
                (glGetAttribLocation program "in_normals" s.gl)
                (nv + j) (nb + 2 * j) (nb + 2 * j + 1) (nb + 2 * N + j) g)
            ∧ (j < i → mesh_uploaded s.gl (glGetAttribLocation program "in_coords" s.gl)
                (glGetAttribLocation program "in_normals" s.gl)
                (nv + j) (nb + 2 * j) (nb + 2 * j + 1) (nb + 2 * N + j) g →
              mesh_uploaded s1.gl (glGetAttribLocation program "in_coords" s.gl)
                (glGetAttribLocation program "in_normals" s.gl)
                (nv + j) (nb + 2 * j) (nb + 2 * j + 1) (nb + 2 * N + j) g)) := by
  intro k
  induction k with
  | zero =>
    intro i s hik _ _ _ hlen
    refine ⟨s, rfl, rfl, rfl, rfl, rfl, rfl, by simp, rfl, rfl, rfl, rfl, rfl, rfl, rfl,
      fun _ _ => rfl, ?_⟩
    intro j g hj
    have hjlt : j < s.geom_vec.length := (List.getElem?_eq_some_iff.1 hj).1
    refine ⟨fun hij => ?_, fun _ h => h⟩
    omega
  | succ k ih =>
    intro i s hik hvaos hvbos hibos hlen
    have hiN : i < N := by omega
    have hv : s.vaos[i]? = some (nv + i) := by
      rw [hvaos, List.getElem?_range' nv 1 hiN]; simp
    have hp : s.vbos[2 * i]? = some (nb + 2 * i) := by
      rw [hvbos, List.getElem?_range' nb 1 (by omega : 2 * i < 2 * N)]; simp
    have hn : s.vbos[2 * i + 1]? = some (nb + 2 * i + 1) := by
      rw [hvbos, List.getElem?_range' nb 1 (by omega : 2 * i + 1 < 2 * N)]; simp; omega
    have hi : s.ibos[i]? = some (nb + 2 * N + i) := by
      rw [hibos, List.getElem?_range' (nb + 2 * N) 1 hiN]; simp
    obtain ⟨gi, hgi⟩ : ∃ gi, s.geom_vec[i]? = some gi :=
      ⟨s.geom_vec[i], List.getElem?_eq_getElem (by omega)⟩
    obtain ⟨s2, hbody, b1, b2, b3, b4, b5, bbound, belem, bvao, bstore, f1, f2, f3, f4, f5, f6,
      f7, battrN, battrP⟩ := init_buffers_body_spec program i s _ _ _ _ gi hv hp hn hi hgi
    obtain ⟨s1, hloop, c1, c2, c3, c4, c5, cbound, e1, e2, e3, e4, e5, e6, e7, cstore, cmesh⟩ :=
      ih (i + 1) s2 (by omega) (by rw [b1, hvaos]) (by rw [b2, hvbos]) (by rw [b3, hibos])
        (by rw [b4, hlen])
    have hlocP : glGetAttribLocation program "in_coords" s2.gl
        = glGetAttribLocation program "in_coords" s.gl :=
      glGetAttribLocation_congr program _ _ _ f7
    have hlocN : glGetAttribLocation program "in_normals" s2.gl
        = glGetAttribLocation program "in_normals" s.gl :=
      glGetAttribLocation_congr program _ _ _ f7
    rw [hlocP, hlocN] at cmesh
    refine ⟨s1, ?_, by rw [c1, b1], by rw [c2, b2], by rw [c3, b3], by rw [c4, b4],
      by rw [c5, b5], ?_, by rw [e1, f1], by rw [e2, f2], by rw [e3, f3], by rw [e4, f4],
      by rw [e5, f5], by rw [e6, f6], by rw [e7, f7], ?_, ?_⟩
    · simp only [init_buffers_loop, hbody, Option.bind]
      exact hloop
    · rw [cbound, bbound]
      by_cases hk : k = 0
      · simp only [hk, if_true, Nat.succ_ne_zero, if_false]
        omega
      · simp only [hk, if_false, Nat.succ_ne_zero]
    · intro b hb
      rw [cstore b hb, bstore b]
      have h1 : b ≠ nb + 2 * N + i := by omega
      have h2 : b ≠ nb + 2 * i + 1 := by omega
      have h3 : b ≠ nb + 2 * i := by omega
      simp only [h1, h2, h3, if_false]
    · intro j g hj
      have hjN : j < N := by
        have := (List.getElem?_eq_some_iff.1 hj).1
        omega
      have hj2 : s2.geom_vec[j]? = some g := by rw [b4]; exact hj
      have here : mesh_uploaded s2.gl (glGetAttribLocation program "in_coords" s.gl)
          (glGetAttribLocation program "in_normals" s.gl)
          (nv + i) (nb + 2 * i) (nb + 2 * i + 1) (nb + 2 * N + i) gi := by
        refine ⟨?_, ?_, ?_, belem, battrN, battrP⟩
        · rw [bstore]
          have h1 : nb + 2 * i ≠ nb + 2 * N + i := by omega
          have h2 : nb + 2 * i ≠ nb + 2 * i + 1 := by omega
          simp only [h1, h2, if_false, if_true]
        · rw [bstore]
          have h1 : nb + 2 * i + 1 ≠ nb + 2 * N + i := by omega
          simp only [h1, if_false, if_true]
        · rw [bstore]
          simp only [if_true]
      have keep : j ≠ i → mesh_uploaded s.gl (glGetAttribLocation program "in_coords" s.gl)
          (glGetAttribLocation program "in_normals" s.gl)
          (nv + j) (nb + 2 * j) (nb + 2 * j + 1) (nb + 2 * N + j) g →
          mesh_uploaded s2.gl (glGetAttribLocation program "in_coords" s.gl)
          (glGetAttribLocation program "in_normals" s.gl)
          (nv + j) (nb + 2 * j) (nb + 2 * j + 1) (nb + 2 * N + j) g := by
        intro hne h
        refine mesh_uploaded_congr s.gl s2.gl _ _ _ _ _ _ g ?_ ?_ ?_ ?_ h
        · rw [bstore]
          have h1 : nb + 2 * j ≠ nb + 2 * N + i := by omega
          have h2 : nb + 2 * j ≠ nb + 2 * i + 1 := by omega
          have h3 : nb + 2 * j ≠ nb + 2 * i := by omega
          simp only [h1, h2, h3, if_false]
        · rw [bstore]
          have h1 : nb + 2 * j + 1 ≠ nb + 2 * N + i := by omega
          have h2 : nb + 2 * j + 1 ≠ nb + 2 * i + 1 := by omega
          have h3 : nb + 2 * j + 1 ≠ nb + 2 * i := by omega
          simp only [h1, h2, h3, if_false]
        · rw [bstore]
          have h1 : nb + 2 * N + j ≠ nb + 2 * N + i := by omega
          have h2 : nb + 2 * N + j ≠ nb + 2 * i + 1 := by omega
          have h3 : nb + 2 * N + j ≠ nb + 2 * i := by omega
          simp only [h1, h2, h3, if_false]
        · exact bvao _ (by omega)
      constructor
      · intro hij
        by_cases hji : j = i
        · subst hji
          have hgg : g = gi := by
            rw [hgi] at hj
            exact (Option.some.inj hj).symm
          subst hgg
          exact (cmesh j g hj2).2 (by omega) here
        · exact (cmesh j g hj2).1 (by omega)
      · intro hji h
        exact (cmesh j g hj2).2 (by omega) (keep (by omega) h)

/-- The whole of `init_buffers` on the meshes `main` loaded, with the names the counters
hand out: vertex arrays `nv ..`, attribute buffers `nb ..`, index buffers `nb + 2N ..`. -/
theorem init_buffers_spec (program : Nat) (geoms : List ColGeom) (s : AppState) :
    ∃ s1, init_buffers program (read_geometries geoms s) = some s1
      ∧ s1.vaos = List.range' s.gl.next_vertex_array geoms.length
      ∧ s1.vbos = List.range' s.gl.next_buffer (2 * geoms.length)
      ∧ s1.ibos = List.range' (s.gl.next_buffer + 2 * geoms.length) geoms.length
      ∧ s1.geom_vec = geoms
      ∧ s1.num_objects = geoms.length
      ∧ s1.gl.bound_vertex_array
          = (if geoms.length = 0 then s.gl.bound_vertex_array
             else s.gl.next_vertex_array + (geoms.length - 1))
      ∧ s1.gl.vertex_arrays
          = s.gl.vertex_arrays ++ List.range' s.gl.next_vertex_array geoms.length
      ∧ s1.gl.buffers
          = s.gl.buffers ++ List.range' s.gl.next_buffer (2 * geoms.length)
              ++ List.range' (s.gl.next_buffer + 2 * geoms.length) geoms.length
      ∧ s1.gl.released_vertex_arrays = s.gl.released_vertex_arrays
      ∧ s1.gl.released_buffers = s.gl.released_buffers
      ∧ s1.gl.next_buffer = s.gl.next_buffer + 2 * geoms.length + geoms.length
      ∧ s1.gl.draws = s.gl.draws
      ∧ s1.gl.programs = s.gl.programs
      ∧ (∀ b, b < s.gl.next_buffer ∨ s.gl.next_buffer + 3 * geoms.length ≤ b →
          s1.gl.store b = s.gl.store b)
      ∧ (∀ j g, geoms[j]? = some g →
          mesh_uploaded s1.gl (glGetAttribLocation program "in_coords" s.gl)
            (glGetAttribLocation program "in_normals" s.gl)
            (s.gl.next_vertex_array + j) (s.gl.next_buffer + 2 * j)
            (s.gl.next_buffer + 2 * j + 1) (s.gl.next_buffer + 2 * geoms.length + j) g) := by
  obtain ⟨s1, hloop, c1, c2, c3, c4, c5, cbound, e1, e2, e3, e4, e5, e6, e7, cstore, cmesh⟩ :=
    init_buffers_loop_spec program geoms.length s.gl.next_vertex_array s.gl.next_buffer
      geoms.length 0
      { read_geometries geoms s with
        gl := (glGenBuffers (read_geometries geoms s).num_objects
                (glGenBuffers (2 * (read_geometries geoms s).num_objects)
                  (glGenVertexArrays (read_geometries geoms s).num_objects
                    (read_geometries geoms s).gl).2).2).2,
        vaos := (glGenVertexArrays (read_geometries geoms s).num_objects
                  (read_geometries geoms s).gl).1,
        vbos := (glGenBuffers (2 * (read_geometries geoms s).num_objects)
                  (glGenVertexArrays (read_geometries geoms s).num_objects
                    (read_geometries geoms s).gl).2).1,
        ibos := (glGenBuffers (read_geometries geoms s).num_objects
                  (glGenBuffers (2 * (read_geometries geoms s).num_objects)
                    (glGenVertexArrays (read_geometries geoms s).num_objects
                      (read_geometries geoms s).gl).2).2).1 }
      (by omega) rfl rfl rfl rfl
  refine ⟨s1, hloop, c1, c2, c3, c4, c5, ?_, e1, ?_, e3, e4, e5, e6, e7, cstore, ?_⟩
  · rw [cbound]
    rfl
  · rw [e2]
    rfl
  · intro j g hj
    exact (cmesh j g hj).1 (Nat.zero_le j)

/-- C7: `init_buffers` on any list of `N` meshes runs to the end; afterwards the vertex-array
id list and the index-buffer id list have `N` entries each and the attribute-buffer id list
has `2N`; for every mesh `i` the slots `vaos[i]`, `vbos[2i]`, `vbos[2i+1]` and `ibos[i]` are
within bounds and are the ones mesh `i` uses: the buffer in `vbos[2i]` holds its positions,
the one in `vbos[2i+1]` its normals, the one in `ibos[i]` its indices, and that index buffer
is the element-array buffer of the vertex array in `vaos[i]`; the slots of two different
meshes are different, and so are the ids stored in them. -/
theorem init_buffers_layout (program : Nat) (geoms : List ColGeom) (s : AppState) :
    ∃ s1, init_buffers program (read_geometries geoms s) = some s1
      ∧ s1.geom_vec = geoms
      ∧ s1.vaos.length = geoms.length
      ∧ s1.ibos.length = geoms.length
      ∧ s1.vbos.length = 2 * geoms.length
      ∧ (∀ i, i < geoms.length →
          ∃ vao pos nrm ibo g,
            s1.vaos[i]? = some vao ∧ s1.vbos[2 * i]? = some pos
            ∧ s1.vbos[2 * i + 1]? = some nrm ∧ s1.ibos[i]? = some ibo
            ∧ geoms[i]? = some g
            ∧ i < s1.vaos.length ∧ 2 * i < s1.vbos.length ∧ 2 * i + 1 < s1.vbos.length
            ∧ i < s1.ibos.length
            ∧ s1.gl.store pos
                = some ⟨(g.map "POSITION").size, .raw (g.map "POSITION").data, .GL_STATIC_DRAW⟩
            ∧ s1.gl.store nrm
                = some ⟨(g.map "NORMAL").size, .raw (g.map "NORMAL").data, .GL_STATIC_DRAW⟩
            ∧ s1.gl.store ibo = some ⟨g.index_count * 2, .raw g.indices, .GL_STATIC_DRAW⟩
            ∧ (s1.gl.vao vao).element_buffer = ibo)
      ∧ (∀ i j, i ≠ j →
          2 * i ≠ 2 * j ∧ 2 * i ≠ 2 * j + 1 ∧ 2 * i + 1 ≠ 2 * j ∧ 2 * i + 1 ≠ 2 * j + 1)
      ∧ s1.vaos.Nodup ∧ (s1.vbos ++ s1.ibos).Nodup := by
  obtain ⟨s1, h, hvaos, hvbos, hibos, hgeom, _, _, _, _, _, _, _, _, _, _, hmesh⟩ :=
    init_buffers_spec program geoms s
  refine ⟨s1, h, hgeom, by rw [hvaos, List.length_range'], by rw [hibos, List.length_range'],
    by rw [hvbos, List.length_range'], ?_, ?_, ?_, ?_⟩
  · intro i hi
    have hg : geoms[i]? = some geoms[i] := List.getElem?_eq_getElem hi
    obtain ⟨m1, m2, m3, m4, _, _⟩ := hmesh i geoms[i] hg
    refine ⟨_, _, _, _, geoms[i], ?_, ?_, ?_, ?_, hg, by rw [hvaos, List.length_range']; exact hi,
      by rw [hvbos, List.length_range']; omega, by rw [hvbos, List.length_range']; omega,
      by rw [hibos, List.length_range']; exact hi, m1, m2, m3, m4⟩
    · rw [hvaos, List.getElem?_range' _ 1 hi]; simp
    · rw [hvbos, List.getElem?_range' _ 1 (by omega : 2 * i < 2 * geoms.length)]; simp
    · rw [hvbos, List.getElem?_range' _ 1 (by omega : 2 * i + 1 < 2 * geoms.length)]
      simp; omega
    · rw [hibos, List.getElem?_range' _ 1 hi]; simp
  · intro i j hij
    omega
  · rw [hvaos]
    exact List.nodup_range' _ _
  · rw [hvbos, hibos, List.range'_append_1]
    exact List.nodup_range' _ _

/-! ## The bound vertex array -/

/-- What `init_uniforms` leaves alone: the bound vertex array, every vertex array object,
every data store but that of the new uniform buffer, the id arrays and the meshes. -/
theorem init_uniforms_frame (program : Nat) (st : AppState) :
    (init_uniforms program st).gl.bound_vertex_array = st.gl.bound_vertex_array
    ∧ (init_uniforms program st).gl.vao = st.gl.vao
    ∧ (∀ b, b ≠ st.gl.next_buffer → (init_uniforms program st).gl.store b = st.gl.store b)
    ∧ (init_uniforms program st).geom_vec = st.geom_vec
    ∧ (init_uniforms program st).gl.draws = st.gl.draws := by
  refine ⟨?_, ?_, ?_, ?_, ?_⟩
  · simp only [init_uniforms, glBindBufferRange, glUseProgram, glBindBuffer, glBufferData,
      bound_buffer, glGenBuffers, glUniform3fv]
  · simp only [init_uniforms, glBindBufferRange, glUseProgram, glBindBuffer, glBufferData,
      bound_buffer, glGenBuffers, glUniform3fv]
  · intro b hb
    simp [init_uniforms, glBindBufferRange, glUseProgram, glBindBuffer, glBufferData,
      bound_buffer, glGenBuffers, glUniform3fv, hb]
  · simp only [init_uniforms]
  · simp only [init_uniforms, glBindBufferRange, glUseProgram, glBindBuffer, glBufferData,
      bound_buffer, glGenBuffers, glUniform3fv]

/-- What `reshape` leaves alone. -/
theorem reshape_frame (w h : Int) (st : AppState) :
    (reshape w h st).gl.bound_vertex_array = st.gl.bound_vertex_array
    ∧ (reshape w h st).gl.vao = st.gl.vao
    ∧ (reshape w h st).gl.store = st.gl.store
    ∧ (reshape w h st).geom_vec = st.geom_vec
    ∧ (reshape w h st).gl.draws = st.gl.draws := by
  by_cases hneg : w < 0 ∨ h < 0
  · simp [reshape, glViewport, glUniformMatrix4fv, hneg]
  · simp [reshape, glViewport, glUniformMatrix4fv, hneg]

/-- What `update_vertices` leaves alone. -/
theorem update_vertices_frame (t : Int) (st : AppState) :
    (update_vertices t st).gl.bound_vertex_array = st.gl.bound_vertex_array
    ∧ (update_vertices t st).gl.vao = st.gl.vao
    ∧ (update_vertices t st).gl.store = st.gl.store
    ∧ (update_vertices t st).geom_vec = st.geom_vec
    ∧ (update_vertices t st).gl.draws = st.gl.draws := by
  unfold update_vertices
  by_cases hy : (delta_r (delta_t st.start_time t)).y > 0
  · simp [hy, glutPostRedisplay, glUniform3fv]
  · simp [hy, glutPostRedisplay]

/-- The callback `display` with at least one mesh loaded: one draw call with the topology and
index count of mesh 0 through whatever vertex array is bound; nothing else changes. -/
theorem display_eq (st : AppState) (g0 : ColGeom) (hg : st.geom_vec[0]? = some g0) :
    display st
      = some { st with gl := { st.gl with
          draws := st.gl.draws ++ [⟨g0.primitive, g0.index_count, st.gl.bound_vertex_array⟩] } } := by
  simp only [display, hg, Option.bind_eq_bind, Option.some_bind, glDrawElements]

/-- Any sequence of callbacks, with at least one mesh loaded, runs to the end and keeps the
bound vertex array, the vertex array objects, the data stores and the meshes; every draw call
it adds has the topology and index count of mesh 0 and goes through the bound vertex array. -/
theorem main_loop_frame (evs : List Event) :
    ∀ (st : AppState) (g0 : ColGeom), st.geom_vec[0]? = some g0 →
      ∃ st1, main_loop evs st = some st1
        ∧ st1.gl.bound_vertex_array = st.gl.bound_vertex_array
        ∧ st1.gl.vao = st.gl.vao
        ∧ st1.gl.store = st.gl.store
        ∧ st1.geom_vec = st.geom_vec
        ∧ (∀ d ∈ st1.gl.draws, d ∈ st.gl.draws
            ∨ d = ⟨g0.primitive, g0.index_count, st.gl.bound_vertex_array⟩) := by
  induction evs with
  | nil =>
    intro st g0 _
    exact ⟨st, rfl, rfl, rfl, rfl, rfl, fun d hd => Or.inl hd⟩
  | cons e rest ih =>
    intro st g0 hg
    have hstep : ∃ st2, dispatch e st = some st2
        ∧ st2.gl.bound_vertex_array = st.gl.bound_vertex_array
        ∧ st2.gl.vao = st.gl.vao ∧ st2.gl.store = st.gl.store
        ∧ st2.geom_vec = st.geom_vec
        ∧ (∀ d ∈ st2.gl.draws, d ∈ st.gl.draws
            ∨ d = ⟨g0.primitive, g0.index_count, st.gl.bound_vertex_array⟩) := by
      cases e with
      | paint =>
        refine ⟨_, display_eq st g0 hg, rfl, rfl, rfl, rfl, ?_⟩
        intro d hd
        simp only [List.mem_append, List.mem_singleton] at hd
        exact hd
      | resize w h =>
        obtain ⟨r1, r2, r3, r4, r5⟩ := reshape_frame w h st
        refine ⟨_, rfl, r1, r2, r3, r4, ?_⟩
        intro d hd
        rw [r5] at hd
        exact Or.inl hd
      | idle t =>
        obtain ⟨r1, r2, r3, r4, r5⟩ := update_vertices_frame t st
        refine ⟨_, rfl, r1, r2, r3, r4, ?_⟩
        intro d hd
        rw [r5] at hd
        exact Or.inl hd
    obtain ⟨st2, hd, a1, a2, a3, a4, a5⟩ := hstep
    obtain ⟨st1, hl, b1, b2, b3, b4, b5⟩ := ih st2 g0 (by rw [a4]; exact hg)
    refine ⟨st1, ?_, by rw [b1, a1], by rw [b2, a2], by rw [b3, a3], by rw [b4, a4], ?_⟩
    · simp only [main_loop, hd, Option.bind]
      exact hl
    · intro d hdd
      rcases b5 d hdd with h | h
      · exact a5 d h
      · right
        rw [h, a1]

/-- C10: with `N ≥ 1` meshes, after `init_buffers` and again after `init_uniforms` the bound
vertex array is the one of the last mesh, `vaos[N-1]`; none of `init_uniforms`, `reshape`,
`update_vertices`, `display` changes the bound vertex array; so after any sequence of
callbacks it is still `vaos[N-1]`, still attached to the buffers `vbos[2(N-1)]`,
`vbos[2(N-1)+1]`, `ibos[N-1]` that hold the streams of mesh `N-1`, and every draw `display`
issues goes through it while its topology and index count are those of mesh 0; the two
meshes are the same exactly when `N = 1`. -/
theorem draws_use_last_vertex_array (program : Nat) (geoms : List ColGeom) (s : AppState)
    (hN : 1 ≤ geoms.length) :
    ∃ s1 vao pos nrm ibo g0 gLast,
      init_buffers program (read_geometries geoms s) = some s1
      ∧ s1.vaos[geoms.length - 1]? = some vao
      ∧ s1.vbos[2 * (geoms.length - 1)]? = some pos
      ∧ s1.vbos[2 * (geoms.length - 1) + 1]? = some nrm
      ∧ s1.ibos[geoms.length - 1]? = some ibo
      ∧ geoms[0]? = some g0
      ∧ geoms[geoms.length - 1]? = some gLast
      ∧ s1.gl.bound_vertex_array = vao
      ∧ (init_uniforms program s1).gl.bound_vertex_array = vao
      ∧ (∀ st, (init_uniforms program st).gl.bound_vertex_array = st.gl.bound_vertex_array)
      ∧ (∀ w h st, (reshape w h st).gl.bound_vertex_array = st.gl.bound_vertex_array)
      ∧ (∀ t st, (update_vertices t st).gl.bound_vertex_array = st.gl.bound_vertex_array)
      ∧ (∀ st st1, display st = some st1 →
          st1.gl.bound_vertex_array = st.gl.bound_vertex_array)
      ∧ (∀ evs, ∃ s3, main_loop evs (init_uniforms program s1) = some s3
          ∧ s3.gl.bound_vertex_array = vao
          ∧ display s3
              = some { s3 with gl := { s3.gl with
                  draws := s3.gl.draws ++ [⟨g0.primitive, g0.index_count, vao⟩] } }
          ∧ (∀ d ∈ s3.gl.draws, d ∈ s.gl.draws
              ∨ (d.vertex_array = vao ∧ d.mode = g0.primitive ∧ d.count = g0.index_count))
          ∧ (s3.gl.vao vao).element_buffer = ibo
          ∧ s3.gl.store ibo
              = some ⟨gLast.index_count * 2, .raw gLast.indices, .GL_STATIC_DRAW⟩
          ∧ s3.gl.store pos
              = some ⟨(gLast.map "POSITION").size, .raw (gLast.map "POSITION").data,
                  .GL_STATIC_DRAW⟩
          ∧ s3.gl.store nrm
              = some ⟨(gLast.map "NORMAL").size, .raw (gLast.map "NORMAL").data,
                  .GL_STATIC_DRAW⟩
          ∧ (∀ l : Nat, glGetAttribLocation program "in_normals" s.gl = (l : Int) →
              (s3.gl.vao vao).attribs l
                = some ⟨nrm, (gLast.map "NORMAL").stride, (gLast.map "NORMAL").type⟩)
          ∧ (∀ l : Nat, glGetAttribLocation program "in_coords" s.gl = (l : Int) →
              glGetAttribLocation program "in_normals" s.gl ≠ (l : Int) →
              (s3.gl.vao vao).attribs l
                = some ⟨pos, (gLast.map "POSITION").stride, (gLast.map "POSITION").type⟩))
      ∧ (geoms.length - 1 = 0 ↔ geoms.length = 1) := by
  obtain ⟨s1, h, hvaos, hvbos, hibos, hgeom, _, hbound, _, _, _, _, hnext, hdraws, _, _,
    hmesh⟩ := init_buffers_spec program geoms s
  have hlast : geoms.length - 1 < geoms.length := by omega
  have hg0 : geoms[0]? = some geoms[0] := List.getElem?_eq_getElem (by omega)
  have hgL : geoms[geoms.length - 1]? = some geoms[geoms.length - 1] :=
    List.getElem?_eq_getElem hlast
  obtain ⟨m1, m2, m3, m4, m5, m6⟩ := hmesh _ _ hgL
  have hb1 : s1.gl.bound_vertex_array = s.gl.next_vertex_array + (geoms.length - 1) := by
    rw [hbound]
    have : geoms.length ≠ 0 := by omega
    simp only [this, if_false]
  obtain ⟨u1, u2, u3, u4, u5⟩ := init_uniforms_frame program s1
  refine ⟨s1, s.gl.next_vertex_array + (geoms.length - 1),
    s.gl.next_buffer + 2 * (geoms.length - 1), s.gl.next_buffer + 2 * (geoms.length - 1) + 1,
    s.gl.next_buffer + 2 * geoms.length + (geoms.length - 1),
    geoms[0], geoms[geoms.length - 1], h, ?_, ?_, ?_, ?_, hg0, hgL, hb1,
    by rw [u1, hb1], fun st => (init_uniforms_frame program st).1,
    fun w h st => (reshape_frame w h st).1, fun t st => (update_vertices_frame t st).1,
    ?_, ?_, by omega⟩
  · rw [hvaos, List.getElem?_range' _ 1 hlast]; simp
  · rw [hvbos, List.getElem?_range' _ 1 (by omega)]; simp
  · rw [hvbos, List.getElem?_range' _ 1 (by omega)]; simp; omega
  · rw [hibos, List.getElem?_range' _ 1 hlast]; simp
  · intro st st1 hd
    cases hg : st.geom_vec[0]? with
    | none => simp [display, hg] at hd
    | some g =>
      rw [display_eq st g hg] at hd
      rw [← Option.some.inj hd]
  · intro evs
    have hgs : (init_uniforms program s1).geom_vec[0]? = some geoms[0] := by
      rw [u4, hgeom]; exact hg0
    obtain ⟨s3, hl, a1, a2, a3, a4, a5⟩ := main_loop_frame evs _ _ hgs
    have hb3 : s3.gl.bound_vertex_array = s.gl.next_vertex_array + (geoms.length - 1) := by
      rw [a1, u1, hb1]
    have hstore : ∀ b, b < s.gl.next_buffer + 3 * geoms.length →
        s3.gl.store b = s1.gl.store b := by
      intro b hb
      rw [a3, u3 b (by rw [hnext]; omega)]
    have hvao : s3.gl.vao = s1.gl.vao := by rw [a2, u2]
    refine ⟨s3, hl, hb3, ?_, ?_, ?_, ?_, ?_, ?_, ?_, ?_⟩
    · rw [display_eq s3 geoms[0] (by rw [a4]; exact hgs), hb3]
    · intro d hd
      rcases a5 d hd with h1 | h1
      · left
        rw [u5, hdraws] at h1
        exact h1
      · right
        rw [h1, u1, hb1]
        exact ⟨rfl, rfl, rfl⟩
    · rw [hvao]; exact m4
    · rw [hstore _ (by omega)]; exact m3
    · rw [hstore _ (by omega)]; exact m1
    · rw [hstore _ (by omega)]; exact m2
    · rw [hvao]; exact m5
    · rw [hvao]; exact m6

/-- Witness for C10: two meshes, a triangle first and a segment second.  After a resize, a
tick and a paint the bound vertex array is the segment's (name 2), and the next paint draws
the triangle's topology (4) and index count (3) through it. -/
theorem draws_use_last_vertex_array_witness :
    1 ≤ [triangle_mesh, segment_mesh].length
    ∧ ∃ s1, init_buffers 3 (read_geometries [triangle_mesh, segment_mesh] AppState.initial)
          = some s1
        ∧ s1.vaos = [1, 2]
        ∧ ∃ s3, main_loop [Event.resize 300 300, Event.idle 16, Event.paint]
              (init_uniforms 3 s1) = some s3
            ∧ s3.gl.bound_vertex_array = 2
            ∧ ∃ s4, display s3 = some s4 ∧ s4.gl.draws = s3.gl.draws ++ [⟨4, 3, 2⟩] := by
  refine ⟨by decide, ?_⟩
  obtain ⟨s1, vao, pos, nrm, ibo, g0, gLast, h, hv, _, _, _, hg0, _, _, _, _, _, _, _, hloop, _⟩ :=
    draws_use_last_vertex_array 3 [triangle_mesh, segment_mesh] AppState.initial (by decide)
  have hc : (init_buffers 3
      (read_geometries [triangle_mesh, segment_mesh] AppState.initial)).map (fun x => x.vaos)
        = some [1, 2] := by decide
  rw [h] at hc
  have hvaos : s1.vaos = [1, 2] := Option.some.inj hc
  have hvao : vao = 2 := by
    rw [hvaos] at hv
    exact (Option.some.inj hv).symm
  have hg : g0 = triangle_mesh := (Option.some.inj hg0).symm
  subst hvao
  subst hg
  obtain ⟨s3, hl, hb, hd, _⟩ := hloop [Event.resize 300 300, Event.idle 16, Event.paint]
  exact ⟨s1, h, hvaos, s3, hl, hb, _, hd, rfl⟩

end AnimateSphere
